import Mathlib

/-!
# A shallow embedding of the mini-rdbms engine

This file embeds the core of the in-memory SQL engine (tokenizer, parser,
type validator, index manager, table storage, per-statement executors and
the transactional session) as executable Lean definitions, and proves or
refutes a fixed list of specification claims about it.

Modelling conventions:

* JavaScript numbers are modelled as exact rationals (`JSNum`).  Every numeric
  literal exercised by the theorems below (such as 1, 42 or 3.5) is exactly
  representable as an IEEE-754 double, and the engine performs no arithmetic
  on them beyond parsing, equality and order comparison, all of which agree
  with the rational model on such values.
* JavaScript objects used as row records, and `Map`s used as catalogs and
  index structures, are modelled as insertion-ordered association lists;
  assignment to an existing key keeps its position, assignment to a fresh key
  appends, matching the iteration order of JS objects and `Map`s for the
  string and scalar keys used by the engine.
* `undefined` is modelled as absence from an association list (`Option`),
  while SQL `NULL` (JS `null`) is the explicit value `Value.null`.
* Wall-clock `executionTime` fields are omitted from result values: they are
  not modellable and no claim mentions them.
* Host-environment string formatting of non-integral numbers and host date
  parsing (`new Date(string)`) are implementation-defined; they are modelled
  by simple total functions, and no theorem below depends on them.
-/

namespace MiniRDBMS

/-! ## JS primitive models -/

/-- JS `/\s/` on the ASCII range (the engine is specified as ASCII-only). -/
def jsIsWhitespace (c : Char) : Bool :=
  c = ' ' || c = '\t' || c = '\n' || c = '\r' || c.toNat = 11 || c.toNat = 12

/-- ASCII `toLowerCase` on one character. -/
def charToLowerJS (c : Char) : Char :=
  if 'A' ≤ c ∧ c ≤ 'Z' then Char.ofNat (c.toNat + 32) else c

/-- ASCII `toUpperCase` on one character. -/
def charToUpperJS (c : Char) : Char :=
  if 'a' ≤ c ∧ c ≤ 'z' then Char.ofNat (c.toNat - 32) else c

/-- `String.prototype.toLowerCase` restricted to ASCII (the engine is
specified as case-insensitive ASCII only). -/
def jsToLower (s : String) : String := String.mk (s.toList.map charToLowerJS)

/-- `String.prototype.toUpperCase` restricted to ASCII. -/
def jsToUpper (s : String) : String := String.mk (s.toList.map charToUpperJS)

/-- `String.prototype.trim`. -/
def jsTrim (s : String) : String :=
  String.mk
    (((s.toList.dropWhile jsIsWhitespace).reverse.dropWhile jsIsWhitespace).reverse)

/-- A JavaScript number, modelled as an exact rational held in lowest terms
(numerator and positive denominator) so that structural equality is value
equality.  Every literal exercised by the theorems below is exactly
representable as an IEEE-754 double, and the only arithmetic the engine
performs on numbers (parsing, negation, subtraction, comparison) is exact
on them. -/
structure JSNum where
  n : Int
  d : Nat
deriving DecidableEq, Repr

namespace JSNum

/-- Build a number from a fraction, normalizing to lowest terms (the
denominator argument is positive at every call site). -/
def mk0 (n : Int) (d : Nat) : JSNum :=
  let g := Nat.gcd n.natAbs d
  if g = 0 then ⟨0, 1⟩ else ⟨n / (g : Int), d / g⟩

/-- An integral number. -/
def ofInt (i : Int) : JSNum := ⟨i, 1⟩

instance : OfNat JSNum k := ⟨⟨(k : Int), 1⟩⟩

/-- Negation. -/
def neg (a : JSNum) : JSNum := ⟨-a.n, a.d⟩

/-- Subtraction. -/
def sub (a b : JSNum) : JSNum := mk0 (a.n * b.d - b.n * a.d) (a.d * b.d)

/-- Multiplication. -/
def mul (a b : JSNum) : JSNum := mk0 (a.n * b.n) (a.d * b.d)

/-- Comparison (sound because denominators are positive). -/
def jle (a b : JSNum) : Bool := decide (a.n * b.d ≤ b.n * a.d)

/-- Strict comparison. -/
def jlt (a b : JSNum) : Bool := decide (a.n * b.d < b.n * a.d)

/-- Whether the number is zero. -/
def isZero (a : JSNum) : Bool := a.n = 0

/-- Whether the denominator is 1 (`Number.isInteger` on a finite value). -/
def isInt (a : JSNum) : Bool := a.d = 1

end JSNum

/-- Numeric value of a decimal digit character. -/
def digitVal (c : Char) : Nat := c.toNat - 48

/-- Decimal value of a list of digit characters. -/
def decimalOfDigits (l : List Char) : Nat :=
  l.foldl (fun a c => a * 10 + digitVal c) 0

/-- JS `parseInt(s, 10)`: skip leading whitespace, optional sign, leading
decimal digits; `none` models `NaN` (no digits found). -/
def parseIntJS (s : String) : Option Int :=
  let cs := s.toList.dropWhile jsIsWhitespace
  let signAndRest : Int × List Char :=
    match cs with
    | '-' :: t => (-1, t)
    | '+' :: t => (1, t)
    | _ => (1, cs)
  let ds := signAndRest.2.takeWhile Char.isDigit
  if ds.isEmpty then none
  else some (signAndRest.1 * (decimalOfDigits ds : Int))

/-- JS `Number.prototype.toString` for integral values (exact for the
integer magnitudes the engine produces). -/
def intToStringJS (i : Int) : String := toString i

/-- JS `parseFloat`: skip leading whitespace, optional sign, decimal digits
with optional fraction and optional exponent; `none` models `NaN`.
(The literals `Infinity`/`NaN` are not modelled; no claim exercises them.) -/
def parseFloatJS (s : String) : Option JSNum :=
  let cs := s.toList.dropWhile jsIsWhitespace
  let signAndRest : Int × List Char :=
    match cs with
    | '-' :: t => (-1, t)
    | '+' :: t => (1, t)
    | _ => (1, cs)
  let intPart := signAndRest.2.takeWhile Char.isDigit
  let afterInt := signAndRest.2.dropWhile Char.isDigit
  let fracAndRest : List Char × List Char :=
    match afterInt with
    | '.' :: t => (t.takeWhile Char.isDigit, t.dropWhile Char.isDigit)
    | _ => ([], afterInt)
  if intPart.isEmpty ∧ fracAndRest.1.isEmpty then none
  else
    let fl := fracAndRest.1.length
    let mantNum : Int :=
      ((decimalOfDigits intPart * 10 ^ fl + decimalOfDigits fracAndRest.1 : Nat) : Int)
    let exp : Int :=
      match fracAndRest.2 with
      | 'e' :: t => parseExp t
      | 'E' :: t => parseExp t
      | _ => 0
    if 0 ≤ exp then
      some (JSNum.mk0 (signAndRest.1 * mantNum * (10 ^ exp.toNat : Nat)) (10 ^ fl))
    else
      some (JSNum.mk0 (signAndRest.1 * mantNum) (10 ^ fl * 10 ^ (-exp).toNat))
where
  /-- Exponent suffix: optional sign and at least one digit, else 0 (JS
  takes the longest valid literal prefix). -/
  parseExp (t : List Char) : Int :=
    let signAndRest : Int × List Char :=
      match t with
      | '-' :: t2 => (-1, t2)
      | '+' :: t2 => (1, t2)
      | _ => (1, t)
    let ds := signAndRest.2.takeWhile Char.isDigit
    if ds.isEmpty then 0
    else signAndRest.1 * (decimalOfDigits ds : Int)

/-- Display form of a rational for interpolation into error messages.  JS
shortest-round-trip float formatting is approximated: exact for integral
values (the only ones the engine interpolates in practice); no theorem
below inspects a message built from a non-integral number. -/
def ratDisplay (q : JSNum) : String :=
  if q.d = 1 then intToStringJS q.n
  else intToStringJS q.n ++ "/" ++ intToStringJS (q.d : Int)

/-! ## Value and type model (`lib/types/database.ts`) -/

/-- A `ColumnValue`: `string | number | boolean | Date | null`.  A `Date`
is its epoch-millisecond timestamp. -/
inductive Value where
  | str (s : String)
  | num (q : JSNum)
  | bool (b : Bool)
  | date (ms : JSNum)
  | null
deriving DecidableEq, Repr

/-- Template-literal conversion of a value (for error-message construction). -/
def displayValue : Value → String
  | .str s => s
  | .num q => ratDisplay q
  | .bool b => if b then "true" else "false"
  | .date ms => "Date(" ++ ratDisplay ms ++ ")"
  | .null => "null"

/-- `enum DataType`. -/
inductive DataType where
  | integer
  | text
  | boolean
  | real
  | date
deriving DecidableEq, Repr

/-- The string form of a data type (the enum values). -/
def DataType.toStr : DataType → String
  | .integer => "INTEGER"
  | .text => "TEXT"
  | .boolean => "BOOLEAN"
  | .real => "REAL"
  | .date => "DATE"

/-- `isValidDataType`: membership of a string in the `DataType` enum values. -/
def isValidDataType (s : String) : Bool :=
  s = "INTEGER" || s = "TEXT" || s = "BOOLEAN" || s = "REAL" || s = "DATE"

/-- The data type named by a string (used after an `isValidDataType` check). -/
def dataTypeOfString (s : String) : DataType :=
  if s = "INTEGER" then .integer
  else if s = "TEXT" then .text
  else if s = "BOOLEAN" then .boolean
  else if s = "REAL" then .real
  else .date

/-- `interface ColumnDefinition`. -/
structure ColumnDefinition where
  name : String
  type : DataType
  primaryKey : Bool
  autoIncrement : Bool
  unique : Bool
  notNull : Bool
  defaultValue : Value
deriving DecidableEq, Repr

/-- `interface TableSchema`.  `primaryKey : string | null` is an `Option`. -/
structure TableSchema where
  name : String
  columns : List ColumnDefinition
  primaryKey : Option String
  uniqueColumns : List String
deriving DecidableEq, Repr

/-- A row: a JS object mapping column names to values, modelled as an
insertion-ordered association list with unique keys. -/
abbrev Row := List (String × Value)

/-- JS property read `row[k]`; `none` models `undefined`. -/
def rowGet (r : Row) (k : String) : Option Value :=
  (List.lookup k r)

/-- JS property write `row[k] = v`: overwrite in place or append. -/
def rowSet (r : Row) (k : String) (v : Value) : Row :=
  if (List.lookup k r).isSome then
    (r : List (String × Value)).map (fun p => if p.1 = k then (k, v) else p)
  else r ++ [(k, v)]

/-- JS `delete row[k]`. -/
def rowDelete (r : Row) (k : String) : Row :=
  (r : List (String × Value)).filter (fun p => p.1 ≠ k)

/-- `interface ConstraintViolation`. -/
structure ConstraintViolation where
  type : String
  column : String
  value : Value
  message : String
deriving DecidableEq, Repr

/-- `type DatabaseError` (the transactional snapshot's variant list, which
includes `TRANSACTION_ERROR` and the optional `COLUMN_NOT_FOUND` message). -/
inductive DatabaseError where
  | tableNotFound (tableName : String)
  | tableAlreadyExists (tableName : String)
  | columnNotFound (columnName : String) (message : Option String)
  | constraintViolation (violation : ConstraintViolation)
  | syntaxError (message : String)
  | executionError (message : String)
  | transactionError (message : String)
deriving DecidableEq, Repr

/-! ## Insertion-ordered maps and sets (JS `Map` / `Set`) -/

/-- A JS `Map` with keys of type `κ`, as an insertion-ordered association
list with unique keys. -/
abbrev Jmap (κ α : Type) := List (κ × α)

/-- `map.get(k)`; `none` models `undefined`. -/
def jmapGet [DecidableEq κ] (m : Jmap κ α) (k : κ) : Option α :=
  (m.find? (fun p => p.1 = k)).map (fun p => p.2)

/-- `map.set(k, v)`: overwrite in place or append. -/
def jmapSet [DecidableEq κ] (m : Jmap κ α) (k : κ) (v : α) : Jmap κ α :=
  if (jmapGet m k).isSome then
    m.map (fun p => if p.1 = k then (k, v) else p)
  else m ++ [(k, v)]

/-- `map.delete(k)`. -/
def jmapDelete [DecidableEq κ] (m : Jmap κ α) (k : κ) : Jmap κ α :=
  m.filter (fun p => p.1 ≠ k)

/-- `map.has(k)`. -/
def jmapHas [DecidableEq κ] (m : Jmap κ α) (k : κ) : Bool :=
  (jmapGet m k).isSome

/-- A JS `Set` of row positions, as an insertion-ordered duplicate-free list. -/
abbrev Jset := List Nat

/-- `set.add(n)`. -/
def jsetAdd (s : Jset) (n : Nat) : Jset :=
  if n ∈ s then s else s ++ [n]

/-- `set.delete(n)`. -/
def jsetDelete (s : Jset) (n : Nat) : Jset :=
  s.filter (fun x => x ≠ n)

/-! ## IndexManager (`lib/storage/IndexManager.ts`) -/

/-- `interface Index`: one column's value → row-position multimap. -/
structure Index where
  columnName : String
  unique : Bool
  entries : Jmap Value Jset
deriving DecidableEq, Repr

namespace IndexManager

/-- `IndexManager.createIndex`. -/
def createIndex (columnName : String) (unique : Bool) : Index :=
  { columnName := columnName, unique := unique, entries := [] }

/-- `IndexManager.normalizeValue`: `null`/`undefined` → `null`; strings are
lowercased; other scalars unchanged. -/
def normalizeValue : Value → Value
  | .null => .null
  | .str s => .str (jsToLower s)
  | v => v

/-- `IndexManager.addEntry`.  Returns the updated index together with the
violation, if any (the TS method mutates the index in place and returns the
violation or `null`). -/
def addEntry (index : Index) (value : Value) (rowIndex : Nat) :
    Index × Option ConstraintViolation :=
  let normalizedValue := normalizeValue value
  match jmapGet index.entries normalizedValue with
  | some s =>
      if index.unique ∧ s.length > 0 then
        (index,
          some
            { type := "UNIQUE"
              column := index.columnName
              value := value
              message := "Unique constraint violation: value " ++
                displayValue value ++ " already exists in column " ++
                index.columnName })
      else
        ({ index with entries := jmapSet index.entries normalizedValue (jsetAdd s rowIndex) },
          none)
  | none =>
      ({ index with entries := jmapSet index.entries normalizedValue [rowIndex] },
        none)

/-- `IndexManager.removeEntry`. -/
def removeEntry (index : Index) (value : Value) (rowIndex : Nat) : Index :=
  let normalizedValue := normalizeValue value
  match jmapGet index.entries normalizedValue with
  | some s =>
      let s' := jsetDelete s rowIndex
      if s'.length = 0 then
        { index with entries := jmapDelete index.entries normalizedValue }
      else
        { index with entries := jmapSet index.entries normalizedValue s' }
  | none => index

/-- `IndexManager.updateEntry`: remove the old entry, then attempt to add
the new one (the removal persists even when the addition is rejected). -/
def updateEntry (index : Index) (oldValue newValue : Value) (rowIndex : Nat) :
    Index × Option ConstraintViolation :=
  let removed := removeEntry index oldValue rowIndex
  addEntry removed newValue rowIndex

/-- `IndexManager.lookup`. -/
def lookup (index : Index) (value : Value) : Jset :=
  (jmapGet index.entries (normalizeValue value)).getD []

/-- `IndexManager.exists`. -/
def keyPresent (index : Index) (value : Value) : Bool :=
  match jmapGet index.entries (normalizeValue value) with
  | some s => s.length > 0
  | none => false

/-- `IndexManager.getSize`. -/
def getSize (index : Index) : Nat :=
  (index.entries.map (fun p => p.2.length)).sum

/-- `IndexManager.clear`. -/
def clear (index : Index) : Index :=
  { index with entries := [] }

/-- `IndexManager.rebuild`: clear, then re-add every value, stopping at the
first violation (partial re-additions persist, as in the TS original). -/
def rebuild (index : Index) (values : List (Value × Nat)) :
    Index × Option ConstraintViolation :=
  values.foldl
    (fun acc entry =>
      match acc with
      | (i, some v) => (i, some v)
      | (i, none) => addEntry i entry.1 entry.2)
    (clear index, none)

end IndexManager

/-! ## TypeValidator (the executor snapshot's `TypeValidator`) -/

/-- `interface ValidationResult`. -/
structure ValidationResult where
  valid : Bool
  value : Value
  error : Option ConstraintViolation
deriving DecidableEq, Repr

namespace TypeValidator

/-- Convenience constructor for a failed validation. -/
def mismatch (column : String) (value : Value) (message : String) :
    ValidationResult :=
  { valid := false, value := .null
    error := some { type := "TYPE_MISMATCH", column := column, value := value
                    message := message } }

/-- `TypeValidator.validateInteger`. -/
def validateInteger (value : Value) (columnName : String) : ValidationResult :=
  match value with
  | .num q =>
      if ¬ q.isInt then
        mismatch columnName (.num q)
          ("Value " ++ ratDisplay q ++ " is not an integer for column " ++ columnName)
      else { valid := true, value := .num q, error := none }
  | .str s =>
      match parseIntJS s with
      | some parsed =>
          if intToStringJS parsed ≠ s then
            mismatch columnName (.str s)
              ("Cannot convert " ++ s ++ " to INTEGER for column " ++ columnName)
          else { valid := true, value := .num (JSNum.ofInt parsed), error := none }
      | none =>
          mismatch columnName (.str s)
            ("Cannot convert " ++ s ++ " to INTEGER for column " ++ columnName)
  | v =>
      mismatch columnName v ("Expected INTEGER for column " ++ columnName)

/-- `TypeValidator.validateText`. -/
def validateText (value : Value) (columnName : String) : ValidationResult :=
  match value with
  | .str s => { valid := true, value := .str s, error := none }
  | .num q => { valid := true, value := .str (ratDisplay q), error := none }
  | .bool b =>
      { valid := true, value := .str (if b then "true" else "false"), error := none }
  | v => mismatch columnName v ("Cannot convert to TEXT for column " ++ columnName)

/-- `TypeValidator.validateBoolean`. -/
def validateBoolean (value : Value) (columnName : String) : ValidationResult :=
  match value with
  | .bool b => { valid := true, value := .bool b, error := none }
  | .str s =>
      let lower := jsToLower s
      if lower = "true" ∨ lower = "1" ∨ lower = "yes" then
        { valid := true, value := .bool true, error := none }
      else if lower = "false" ∨ lower = "0" ∨ lower = "no" then
        { valid := true, value := .bool false, error := none }
      else
        mismatch columnName (.str s)
          ("Cannot convert to BOOLEAN for column " ++ columnName)
  | .num q => { valid := true, value := .bool (¬ q.isZero), error := none }
  | v => mismatch columnName v ("Cannot convert to BOOLEAN for column " ++ columnName)

/-- `TypeValidator.validateReal`.  In the rational model every number is
finite, so the `isFinite` guard of the original can never fire. -/
def validateReal (value : Value) (columnName : String) : ValidationResult :=
  match value with
  | .num q => { valid := true, value := .num q, error := none }
  | .str s =>
      match parseFloatJS s with
      | some parsed => { valid := true, value := .num parsed, error := none }
      | none =>
          mismatch columnName (.str s)
            ("Cannot convert " ++ s ++ " to REAL for column " ++ columnName)
  | v => mismatch columnName v ("Expected REAL for column " ++ columnName)

/-- Host `new Date(string)` parsing is implementation-defined and exercised
by no claim; it is modelled as never parsing. -/
def jsDateStringParse (_ : String) : Option JSNum := none

/-- The ECMAScript time-value range bound (±8.64e15 ms). -/
def dateRangeBound : JSNum := ⟨8640000000000000, 1⟩

/-- `TypeValidator.validateDate`.  A `Date` value is always valid in the
model (an invalid `Date` object cannot be constructed here); numbers become
timestamps when inside the ECMAScript time range. -/
def validateDate (value : Value) (columnName : String) : ValidationResult :=
  match value with
  | .date ms => { valid := true, value := .date ms, error := none }
  | .str s =>
      match jsDateStringParse s with
      | some ms => { valid := true, value := .date ms, error := none }
      | none =>
          mismatch columnName (.str s)
            ("Cannot convert " ++ s ++ " to DATE for column " ++ columnName)
  | .num q =>
      if q.jle dateRangeBound ∧ dateRangeBound.neg.jle q then
        { valid := true, value := .date q, error := none }
      else
        mismatch columnName (.num q)
          ("Cannot convert " ++ ratDisplay q ++ " to DATE for column " ++ columnName)
  | v => mismatch columnName v ("Expected DATE for column " ++ columnName)

/-- `TypeValidator.validate`.  The `unknown` input is an `Option Value`
(`none` models `undefined`). -/
def validate (value : Option Value) (expectedType : DataType)
    (columnName : String) (allowNull : Bool) : ValidationResult :=
  match value with
  | none =>
      if allowNull then { valid := true, value := .null, error := none }
      else
        { valid := false, value := .null
          error := some { type := "NOT_NULL", column := columnName, value := .null
                          message := "Column " ++ columnName ++ " cannot be NULL" } }
  | some .null =>
      if allowNull then { valid := true, value := .null, error := none }
      else
        { valid := false, value := .null
          error := some { type := "NOT_NULL", column := columnName, value := .null
                          message := "Column " ++ columnName ++ " cannot be NULL" } }
  | some v =>
      match expectedType with
      | .integer => validateInteger v columnName
      | .text => validateText v columnName
      | .boolean => validateBoolean v columnName
      | .real => validateReal v columnName
      | .date => validateDate v columnName

end TypeValidator

/-! ## TableStorage (the storage snapshot's `TableStorage`) -/

/-- `class TableStorage`: schema, row vector, owned indices, auto-increment
counter. -/
structure TableStorage where
  schema : TableSchema
  rows : List Row
  indices : Jmap String Index
  autoIncrementCounter : Int
deriving DecidableEq, Repr

namespace TableStorage

/-- `initializeIndices`: one unique index per primary-key or unique column. -/
def initializeIndices (schema : TableSchema) : Jmap String Index :=
  schema.columns.foldl
    (fun acc column =>
      if column.primaryKey ∨ column.unique then
        jmapSet acc column.name (IndexManager.createIndex column.name true)
      else acc)
    []

/-- The `TableStorage` constructor. -/
def mk0 (schema : TableSchema) : TableStorage :=
  { schema := schema, rows := [], indices := initializeIndices schema
    autoIncrementCounter := 1 }

/-- Result record of `insertRow`. -/
structure InsertOutcome where
  success : Bool
  rowIndex : Option Nat
  lastInsertId : Option Int
  error : Option ConstraintViolation
deriving DecidableEq, Repr

/-- State threaded through the first (validation/preparation) loop of
`insertRow`. -/
structure InsertPrep where
  preparedRow : Row
  lastInsertId : Option Int
  counter : Int
deriving DecidableEq, Repr

/-- The first loop of `insertRow`: auto-increment assignment, default
substitution and type validation, column by column.  A failure carries the
counter state reached so far (the TS counter increment persists). -/
def prepareRow (schema : TableSchema) (counter0 : Int) (data : Row) :
    Except (ConstraintViolation × Int) InsertPrep :=
  schema.columns.foldl
    (fun acc column =>
      match acc with
      | .error e => .error e
      | .ok st =>
          let v0 : Option Value := rowGet data column.name
          let afterAuto : Option Value × Option Int × Int :=
            if column.autoIncrement ∧ column.primaryKey then
              (some (.num (JSNum.ofInt st.counter)), some st.counter, st.counter + 1)
            else (v0, st.lastInsertId, st.counter)
          let value : Option Value :=
            if afterAuto.1 = none ∧ column.defaultValue ≠ .null then
              some column.defaultValue
            else afterAuto.1
          let validation :=
            TypeValidator.validate value column.type column.name (¬ column.notNull)
          match validation.valid, validation.error with
          | false, some e => .error (e, afterAuto.2.2)
          | _, _ =>
              .ok { preparedRow := rowSet st.preparedRow column.name validation.value
                    lastInsertId := afterAuto.2.1
                    counter := afterAuto.2.2 })
    (.ok { preparedRow := [], lastInsertId := none, counter := counter0 })

/-- `rollbackIndexAdditions`: remove this row's (value, position) pair from
every index. -/
def rollbackIndexAdditions (indices : Jmap String Index) (row : Row)
    (rowIndex : Nat) : Jmap String Index :=
  indices.map
    (fun p =>
      (p.1, IndexManager.removeEntry p.2 ((rowGet row p.1).getD .null) rowIndex))

/-- The second loop of `insertRow`: constraint checks and index insertion
for each column, with rollback of partial additions on a violation. -/
def addToIndices (schema : TableSchema) (preparedRow : Row) (rowIndex : Nat) :
    Jmap String Index → List ColumnDefinition →
    Except (Jmap String Index × ConstraintViolation) (Jmap String Index)
  | indices, [] => .ok indices
  | indices, column :: restCols =>
      let value := (rowGet preparedRow column.name).getD .null
      let afterPk :
          Except (Jmap String Index × ConstraintViolation) (Jmap String Index) :=
        match column.primaryKey, schema.primaryKey with
        | true, some pk =>
            match jmapGet indices pk with
            | some pkIndex =>
                let r := IndexManager.addEntry pkIndex value rowIndex
                match r.2 with
                | some violation =>
                    .error
                      (rollbackIndexAdditions (jmapSet indices pk r.1) preparedRow rowIndex,
                        violation)
                | none => .ok (jmapSet indices pk r.1)
            | none => .ok indices
        | _, _ => .ok indices
      match afterPk with
      | .error e => .error e
      | .ok indices1 =>
          let afterUnique :
              Except (Jmap String Index × ConstraintViolation) (Jmap String Index) :=
            if column.unique then
              match jmapGet indices1 column.name with
              | some uniqueIndex =>
                  let r := IndexManager.addEntry uniqueIndex value rowIndex
                  match r.2 with
                  | some violation =>
                      .error
                        (rollbackIndexAdditions (jmapSet indices1 column.name r.1)
                            preparedRow rowIndex,
                          violation)
                  | none => .ok (jmapSet indices1 column.name r.1)
              | none => .ok indices1
            else .ok indices1
          match afterUnique with
          | .error e => .error e
          | .ok indices2 => addToIndices schema preparedRow rowIndex indices2 restCols

/-- `TableStorage.insertRow`. -/
def insertRow (ts : TableStorage) (data : Row) : TableStorage × InsertOutcome :=
  match prepareRow ts.schema ts.autoIncrementCounter data with
  | .error (e, counter) =>
      ({ ts with autoIncrementCounter := counter },
        { success := false, rowIndex := none, lastInsertId := none, error := some e })
  | .ok prep =>
      let rowIndex := ts.rows.length
      match addToIndices ts.schema prep.preparedRow rowIndex ts.indices
          ts.schema.columns with
      | .error (indices1, violation) =>
          let ts1 := { ts with indices := indices1, autoIncrementCounter := prep.counter }
          let outcome : InsertOutcome :=
            { success := false, rowIndex := none, lastInsertId := none
              error := some violation }
          (ts1, outcome)
      | .ok indices1 =>
          let ts1 :=
            { ts with rows := ts.rows ++ [prep.preparedRow], indices := indices1
                      autoIncrementCounter := prep.counter }
          let outcome : InsertOutcome :=
            { success := true, rowIndex := some rowIndex
              lastInsertId := prep.lastInsertId, error := none }
          (ts1, outcome)

/-- Result record of `updateRows`. -/
structure UpdateOutcome where
  success : Bool
  rowsAffected : Nat
  error : Option ConstraintViolation
deriving DecidableEq, Repr

/-- The per-row inner loop of `updateRows`: apply every update entry to one
row, maintaining indexed columns; index-level violations abort with the
partially mutated row (TS mutates the row object in place). -/
def applyUpdatesToRow (schema : TableSchema) (updates : Jmap String Value)
    (rowIndex : Nat) (row0 : Row) (indices0 : Jmap String Index) :
    (Row × Jmap String Index) × Option ConstraintViolation :=
  updates.foldl
    (fun acc entry =>
      match acc with
      | (st, some v) => (st, some v)
      | ((row, indices), none) =>
          let columnName := entry.1
          let newValue := entry.2
          match schema.columns.find? (fun c => c.name = columnName) with
          | none => ((row, indices), none)
          | some _ =>
              let oldValue := rowGet row columnName
              let step : (Row × Jmap String Index) × Option ConstraintViolation :=
                match jmapGet indices columnName, oldValue with
                | some index, some oldV =>
                    let r := IndexManager.updateEntry index oldV newValue rowIndex
                    match r.2 with
                    | some violation =>
                        ((row, jmapSet indices columnName r.1), some violation)
                    | none => ((row, jmapSet indices columnName r.1), none)
                | _, _ => ((row, indices), none)
              match step with
              | (st, some v) => (st, some v)
              | ((row1, indices1), none) =>
                  ((rowSet row1 columnName newValue, indices1), none))
    ((row0, indices0), none)

/-- Write one (possibly mutated) row back at its position. -/
def putRowAt (rows : List Row) (i : Nat) (row : Row) : List Row :=
  rows.take i ++ [row] ++ rows.drop (i + 1)

/-- `TableStorage.updateRows`. -/
def updateRows (ts : TableStorage) (updates : Jmap String Value)
    (filter : Row → Nat → Bool) : TableStorage × UpdateOutcome :=
  let affectedIndices :=
    (ts.rows.enum.filter (fun p => filter p.2 p.1)).map (fun p => p.1)
  -- Validation pass over the update entries (no state is mutated here).
  let validationError : Option ConstraintViolation :=
    updates.foldl
      (fun acc entry =>
        match acc with
        | some e => some e
        | none =>
            match ts.schema.columns.find? (fun c => c.name = entry.1) with
            | none =>
                some { type := "TYPE_MISMATCH", column := entry.1, value := entry.2
                       message := "Column " ++ entry.1 ++ " does not exist" }
            | some column =>
                let validation :=
                  TypeValidator.validate (some entry.2) column.type column.name
                    (¬ column.notNull)
                match validation.valid, validation.error with
                | false, some e => some e
                | _, _ => none)
      none
  match validationError with
  | some e => (ts, { success := false, rowsAffected := 0, error := some e })
  | none =>
      -- Mutation pass: partial mutations persist up to the first violation.
      let final :=
        affectedIndices.foldl
          (fun acc rowIndex =>
            match acc with
            | (st, some v) => (st, some v)
            | ((rows, indices), none) =>
                match rows.get? rowIndex with
                | none => ((rows, indices), none)
                | some row =>
                    let r := applyUpdatesToRow ts.schema updates rowIndex row indices
                    ((putRowAt rows rowIndex r.1.1, r.1.2), r.2))
          ((ts.rows, ts.indices), none)
      match final with
      | ((rows, indices), some violation) =>
          ({ ts with rows := rows, indices := indices },
            { success := false, rowsAffected := 0, error := some violation })
      | ((rows, indices), none) =>
          ({ ts with rows := rows, indices := indices },
            { success := true, rowsAffected := affectedIndices.length, error := none })

/-- `rebuildAllIndices`: rebuild every index from the surviving rows,
omitting `null` (and absent) values. -/
def rebuildAllIndices (rows : List Row) (indices : Jmap String Index) :
    Jmap String Index :=
  indices.map
    (fun p =>
      let values :=
        (rows.enum.map (fun q => ((rowGet q.2 p.1).getD .null, q.1))).filter
          (fun e => e.1 ≠ Value.null)
      (p.1, (IndexManager.rebuild p.2 values).1))

/-- `TableStorage.deleteRows`. -/
def deleteRows (ts : TableStorage) (filter : Row → Nat → Bool) :
    TableStorage × Nat :=
  let indicesToDelete :=
    (ts.rows.enum.filter (fun p => filter p.2 p.1)).map (fun p => p.1)
  -- Remove each deleted row's entries from every index.
  let indices1 :=
    indicesToDelete.foldl
      (fun indices rowIndex =>
        match ts.rows.get? rowIndex with
        | none => indices
        | some row =>
            indices.map
              (fun p =>
                match rowGet row p.1 with
                | some v => (p.1, IndexManager.removeEntry p.2 v rowIndex)
                | none => p))
      ts.indices
  -- Splice matching positions out (descending removal = positional filter).
  let rows1 :=
    (ts.rows.enum.filter (fun p => p.1 ∉ indicesToDelete)).map (fun p => p.2)
  ({ ts with rows := rows1, indices := rebuildAllIndices rows1 indices1 },
    indicesToDelete.length)

/-- `TableStorage.findByIndex`. -/
def findByIndex (ts : TableStorage) (columnName : String) (value : Value) :
    List Row :=
  match jmapGet ts.indices columnName with
  | none => []
  | some index =>
      ((IndexManager.lookup index value).map (fun i => ts.rows.get? i)).filterMap id

/-- `TableStorage.getIndex`. -/
def getIndex (ts : TableStorage) (columnName : String) : Option Index :=
  jmapGet ts.indices columnName

/-- Modelled from the spec: `TableStorage.clone` is absent from `src/` (only
its caller, the transactional session, is present).  The spec requires a
fully independent deep copy, which for a pure value is the value itself. -/
def clone (ts : TableStorage) : TableStorage := ts

/-- Modelled from the spec: `TableStorage.updateSchemaAndRows` is absent
from `src/` (only its caller, the ALTER TABLE executor, is present).  Per
the spec, it atomically replaces schema and rows, rebuilds the indexes to
reflect the new schema's primary/unique columns, and preserves the
auto-increment counter. -/
def updateSchemaAndRows (ts : TableStorage) (schema : TableSchema)
    (rows : List Row) : TableStorage :=
  { schema := schema, rows := rows
    indices := rebuildAllIndices rows (initializeIndices schema)
    autoIncrementCounter := ts.autoIncrementCounter }

/-- `getRowCount`. -/
def getRowCount (ts : TableStorage) : Nat := ts.rows.length

end TableStorage

/-! ## Tokenizer (`lib/parser/Tokenizer.ts`) -/

/-- `enum TokenType`, exactly the members present in the source enum. -/
inductive TokenType where
  | SELECT | FROM | WHERE | INSERT | INTO | VALUES | UPDATE | DELETE | SET
  | CREATE | TABLE | DROP | ALTER | PRIMARY | KEY | UNIQUE | NOT | NULL
  | AUTO_INCREMENT | DEFAULT | AND | OR | LIKE | JOIN | INNER | LEFT | RIGHT
  | ON | ORDER | BY | ASC | DESC | LIMIT | SHOW | TABLES | DESCRIBE
  | INTEGER | TEXT | BOOLEAN | REAL | DATE
  | STRING | NUMBER | TRUE | FALSE
  | IDENTIFIER
  | EQUALS | NOT_EQUALS | GREATER_THAN | LESS_THAN | GREATER_EQUAL | LESS_EQUAL
  | COMMA | SEMICOLON | LEFT_PAREN | RIGHT_PAREN | ASTERISK | DOT
  | EOF
deriving DecidableEq, Repr

/-- The string value of a token-type enum member (used in error messages). -/
def TokenType.name : TokenType → String
  | .SELECT => "SELECT" | .FROM => "FROM" | .WHERE => "WHERE"
  | .INSERT => "INSERT" | .INTO => "INTO" | .VALUES => "VALUES"
  | .UPDATE => "UPDATE" | .DELETE => "DELETE" | .SET => "SET"
  | .CREATE => "CREATE" | .TABLE => "TABLE" | .DROP => "DROP"
  | .ALTER => "ALTER" | .PRIMARY => "PRIMARY" | .KEY => "KEY"
  | .UNIQUE => "UNIQUE" | .NOT => "NOT" | .NULL => "NULL"
  | .AUTO_INCREMENT => "AUTO_INCREMENT" | .DEFAULT => "DEFAULT"
  | .AND => "AND" | .OR => "OR" | .LIKE => "LIKE" | .JOIN => "JOIN"
  | .INNER => "INNER" | .LEFT => "LEFT" | .RIGHT => "RIGHT" | .ON => "ON"
  | .ORDER => "ORDER" | .BY => "BY" | .ASC => "ASC" | .DESC => "DESC"
  | .LIMIT => "LIMIT" | .SHOW => "SHOW" | .TABLES => "TABLES"
  | .DESCRIBE => "DESCRIBE" | .INTEGER => "INTEGER" | .TEXT => "TEXT"
  | .BOOLEAN => "BOOLEAN" | .REAL => "REAL" | .DATE => "DATE"
  | .STRING => "STRING" | .NUMBER => "NUMBER" | .TRUE => "TRUE"
  | .FALSE => "FALSE" | .IDENTIFIER => "IDENTIFIER" | .EQUALS => "EQUALS"
  | .NOT_EQUALS => "NOT_EQUALS" | .GREATER_THAN => "GREATER_THAN"
  | .LESS_THAN => "LESS_THAN" | .GREATER_EQUAL => "GREATER_EQUAL"
  | .LESS_EQUAL => "LESS_EQUAL" | .COMMA => "COMMA"
  | .SEMICOLON => "SEMICOLON" | .LEFT_PAREN => "LEFT_PAREN"
  | .RIGHT_PAREN => "RIGHT_PAREN" | .ASTERISK => "ASTERISK" | .DOT => "DOT"
  | .EOF => "EOF"

/-- `interface Token`. -/
structure Token where
  type : TokenType
  value : String
  position : Nat
deriving DecidableEq, Repr

/-- The `KEYWORDS` record: exactly the keys present in the source map (note
the absence of ADD, RENAME, COLUMN, TO, MODIFY, IF, EXISTS, BEGIN, COMMIT
and ROLLBACK). -/
def KEYWORDS (s : String) : Option TokenType :=
  if s = "SELECT" then some .SELECT
  else if s = "FROM" then some .FROM
  else if s = "WHERE" then some .WHERE
  else if s = "INSERT" then some .INSERT
  else if s = "INTO" then some .INTO
  else if s = "VALUES" then some .VALUES
  else if s = "UPDATE" then some .UPDATE
  else if s = "DELETE" then some .DELETE
  else if s = "SET" then some .SET
  else if s = "CREATE" then some .CREATE
  else if s = "TABLE" then some .TABLE
  else if s = "DROP" then some .DROP
  else if s = "ALTER" then some .ALTER
  else if s = "PRIMARY" then some .PRIMARY
  else if s = "KEY" then some .KEY
  else if s = "UNIQUE" then some .UNIQUE
  else if s = "NOT" then some .NOT
  else if s = "NULL" then some .NULL
  else if s = "AUTO_INCREMENT" then some .AUTO_INCREMENT
  else if s = "DEFAULT" then some .DEFAULT
  else if s = "AND" then some .AND
  else if s = "OR" then some .OR
  else if s = "LIKE" then some .LIKE
  else if s = "JOIN" then some .JOIN
  else if s = "INNER" then some .INNER
  else if s = "LEFT" then some .LEFT
  else if s = "RIGHT" then some .RIGHT
  else if s = "ON" then some .ON
  else if s = "ORDER" then some .ORDER
  else if s = "BY" then some .BY
  else if s = "ASC" then some .ASC
  else if s = "DESC" then some .DESC
  else if s = "LIMIT" then some .LIMIT
  else if s = "SHOW" then some .SHOW
  else if s = "TABLES" then some .TABLES
  else if s = "DESCRIBE" then some .DESCRIBE
  else if s = "INTEGER" then some .INTEGER
  else if s = "TEXT" then some .TEXT
  else if s = "BOOLEAN" then some .BOOLEAN
  else if s = "REAL" then some .REAL
  else if s = "DATE" then some .DATE
  else if s = "TRUE" then some .TRUE
  else if s = "FALSE" then some .FALSE
  else none

namespace Tokenizer

/-- `/[a-zA-Z]/`. -/
def isAlphaJS (c : Char) : Bool := c.isAlpha

/-- `/[a-zA-Z0-9]/`. -/
def isAlphaNumericJS (c : Char) : Bool := c.isAlphanum

/-- The scanned body of a string literal: the literal's value and the
remaining characters after the closing quote.  The only recognised escape
is a backslash before the delimiter. -/
def readStringChars (quote : Char) : List Char → String × List Char
  | [] => ("", [])
  | x :: t =>
      if x = quote then ("", t)
      else
        match t with
        | y :: t2 =>
            if x = '\\' ∧ y = quote then
              let r := readStringChars quote t2
              (String.mk (quote :: r.1.toList), r.2)
            else
              let r := readStringChars quote (y :: t2)
              (String.mk (x :: r.1.toList), r.2)
        | [] => (String.mk [x], [])

theorem readStringChars_rest_le (quote : Char) :
    ∀ n cs, cs.length ≤ n → (readStringChars quote cs).2.length ≤ cs.length := by
  intro n
  induction n with
  | zero =>
      intro cs h
      have : cs = [] := List.eq_nil_of_length_eq_zero (Nat.le_zero.mp h)
      subst this
      simp [readStringChars]
  | succ n ih =>
      intro cs h
      match cs with
      | [] => simp [readStringChars]
      | x :: t =>
          by_cases hq : x = quote
          · subst hq
            have hr : readStringChars x (x :: t) = ("", t) := by
              rw [readStringChars.eq_def]
              simp
            rw [hr]
            simp
          · match t with
            | [] => simp [readStringChars, hq]
            | y :: t2 =>
                by_cases hesc : x = '\\' ∧ y = quote
                · have h2 : t2.length ≤ n := by
                    simp only [List.length_cons] at h
                    omega
                  have := ih t2 h2
                  simp only [readStringChars, if_neg hq, if_pos hesc]
                  simp only [List.length_cons]
                  omega
                · have h2 : (y :: t2).length ≤ n := by
                    simp only [List.length_cons] at h ⊢
                    omega
                  have := ih (y :: t2) h2
                  simp only [readStringChars, if_neg hq, if_neg hesc]
                  simp only [List.length_cons] at this ⊢
                  omega

theorem dropWhile_len_le (p : Char → Bool) (l : List Char) :
    (l.dropWhile p).length ≤ l.length := by
  induction l with
  | nil => simp
  | cons c t ih =>
      by_cases h : p c
      · simp [List.dropWhile, h]; omega
      · simp [List.dropWhile, h]

/-- The number scanner, entered at a digit `c`: digits, then an optional
fraction when a dot is followed by at least one digit.  Returns the literal
text and the remaining characters. -/
def readNumberChars (c : Char) (rest : List Char) : String × List Char :=
  let ds := c :: rest.takeWhile Char.isDigit
  let after := rest.dropWhile Char.isDigit
  match after with
  | '.' :: d :: t =>
      if d.isDigit then
        let frac := d :: t.takeWhile Char.isDigit
        (String.mk (ds ++ '.' :: frac), t.dropWhile Char.isDigit)
      else (String.mk ds, after)
  | _ => (String.mk ds, after)

theorem readNumberChars_rest_le (c : Char) (rest : List Char) :
    (readNumberChars c rest).2.length ≤ rest.length := by
  simp only [readNumberChars]
  have h0 := dropWhile_len_le Char.isDigit rest
  split
  · rename_i d t heq
    split
    · have h1 := dropWhile_len_le Char.isDigit t
      have h2 : ('.' :: d :: t).length ≤ rest.length := heq ▸ h0
      simp only [List.length_cons] at h2
      dsimp only
      omega
    · simpa [heq] using h0
  · simpa using h0

/-- The identifier scanner, entered at a letter `c`: alphanumerics and
underscores. -/
def readIdentChars (c : Char) (rest : List Char) : String × List Char :=
  let p : Char → Bool := fun x => isAlphaNumericJS x || x = '_'
  (String.mk (c :: rest.takeWhile p), rest.dropWhile p)

theorem readIdentChars_rest_le (c : Char) (rest : List Char) :
    (readIdentChars c rest).2.length ≤ rest.length := by
  simpa [readIdentChars] using dropWhile_len_le _ rest

/-- `readIdentifierOrKeyword`: reclassify to a keyword token when the
uppercase form is a keyword; keyword tokens store the uppercase form,
identifier tokens the original case. -/
def identToken (value : String) (startPos : Nat) : Token :=
  let upperValue := jsToUpper value
  match KEYWORDS upperValue with
  | some tokenType => { type := tokenType, value := upperValue, position := startPos }
  | none => { type := .IDENTIFIER, value := value, position := startPos }

/-- Single- and two-character operator and punctuation tokens; `none` means
an unknown character (skipped by the main loop).  Returns the token together
with the number of characters consumed (one advance for single-character
tokens, two for two-character operators). -/
def readOperatorToken (c : Char) (next : Option Char) (startPos : Nat) :
    Option (Token × Nat) :=
  if c = '!' ∧ next = some '=' then
    some ({ type := .NOT_EQUALS, value := "!=", position := startPos }, 2)
  else if c = '>' ∧ next = some '=' then
    some ({ type := .GREATER_EQUAL, value := ">=", position := startPos }, 2)
  else if c = '<' ∧ next = some '=' then
    some ({ type := .LESS_EQUAL, value := "<=", position := startPos }, 2)
  else if c = '=' then
    some ({ type := .EQUALS, value := "=", position := startPos }, 1)
  else if c = '>' then
    some ({ type := .GREATER_THAN, value := ">", position := startPos }, 1)
  else if c = '<' then
    some ({ type := .LESS_THAN, value := "<", position := startPos }, 1)
  else if c = ',' then
    some ({ type := .COMMA, value := ",", position := startPos }, 1)
  else if c = ';' then
    some ({ type := .SEMICOLON, value := ";", position := startPos }, 1)
  else if c = '(' then
    some ({ type := .LEFT_PAREN, value := "(", position := startPos }, 1)
  else if c = ')' then
    some ({ type := .RIGHT_PAREN, value := ")", position := startPos }, 1)
  else if c = '*' then
    some ({ type := .ASTERISK, value := "*", position := startPos }, 1)
  else if c = '.' then
    some ({ type := .DOT, value := ".", position := startPos }, 1)
  else none

/-- The character scan of `skipComment`, entered after the leading dash:
everything up to and including the line terminator is dropped. -/
def skipCommentRest (rest : List Char) : List Char :=
  match rest.dropWhile (fun x => x ≠ '\n') with
  | '\n' :: t2 => t2
  | _ => []

theorem skipCommentRest_le (rest : List Char) :
    (skipCommentRest rest).length ≤ rest.length := by
  simp only [skipCommentRest]
  have h0 := dropWhile_len_le (fun x => x ≠ '\n') rest
  split
  · rename_i t2 heq
    rw [heq] at h0
    simp only [List.length_cons] at h0
    omega
  · simp

theorem readStringChars_rest_le2 (quote : Char) (cs : List Char) :
    (readStringChars quote cs).2.length ≤ cs.length :=
  readStringChars_rest_le quote cs.length cs (Nat.le_refl _)

/-- The main tokenizer loop over the remaining characters.  Positions are
maintained as the count of characters consumed so far.

The loop recurses structurally on a fuel counter so that it evaluates
inside the kernel; every pass consumes at least one character (the
`..._rest_le` lemmas above), so the initial fuel of `cs.length + 1` always
suffices and the fuel-exhaustion arm is unreachable. -/
def tokenizeLoop : Nat → List Char → Nat → List Token
  | 0, _, pos => [{ type := .EOF, value := "", position := pos }]
  | fuel + 1, cs, pos =>
      match cs with
      | [] => [{ type := .EOF, value := "", position := pos }]
      | c :: rest =>
          if jsIsWhitespace c then
            let rest2 := rest.dropWhile jsIsWhitespace
            tokenizeLoop fuel rest2 (pos + 1 + (rest.length - rest2.length))
          else if c = '-' ∧ rest.head? = some '-' then
            -- a line comment: skip to the line terminator, inclusive
            let rest2 := skipCommentRest rest
            tokenizeLoop fuel rest2 (pos + 1 + (rest.length - rest2.length))
          else if c = '\'' ∨ c = '"' then
            let r := readStringChars c rest
            { type := .STRING, value := r.1, position := pos } ::
              tokenizeLoop fuel r.2 (pos + 1 + (rest.length - r.2.length))
          else if c.isDigit then
            let r := readNumberChars c rest
            { type := .NUMBER, value := r.1, position := pos } ::
              tokenizeLoop fuel r.2 (pos + 1 + (rest.length - r.2.length))
          else if isAlphaJS c then
            let r := readIdentChars c rest
            identToken r.1 pos ::
              tokenizeLoop fuel r.2 (pos + 1 + (rest.length - r.2.length))
          else
            match readOperatorToken c rest.head? pos with
            | some r =>
                -- `r.2` characters consumed in total (including `c`)
                r.1 :: tokenizeLoop fuel (rest.drop (r.2 - 1)) (pos + r.2)
            | none => tokenizeLoop fuel rest (pos + 1)

/-- `Tokenizer.tokenize`. -/
def tokenize (input : String) : List Token :=
  tokenizeLoop (input.toList.length + 1) input.toList 0

end Tokenizer

/-! ## Statement tree (`lib/types/sql.ts`) -/

/-- `type ComparisonOperator`. -/
inductive CompOp where
  | eq | ne | gt | lt | ge | le | like
deriving DecidableEq, Repr

/-- The `AND`/`OR` connective of a `LogicalCondition`. -/
inductive LogicalOp where
  | and | or
deriving DecidableEq, Repr

/-- `Condition | LogicalCondition`. -/
inductive Cond where
  | cond (column : String) (op : CompOp) (value : Value)
  | logical (op : LogicalOp) (left right : Cond)
deriving DecidableEq, Repr

/-- `interface WhereClause`: an array of condition trees (the parser always
produces exactly one). -/
abbrev WhereClause := List Cond

/-- `type ColumnConstraint`. -/
inductive ColumnConstraint where
  | primaryKey | autoIncrement | unique | notNull
deriving DecidableEq, Repr

/-- A parsed column of CREATE TABLE / ALTER TABLE. -/
structure ColSpec where
  name : String
  dataType : DataType
  constraints : List ColumnConstraint
deriving DecidableEq, Repr

/-- `type AlterTableAction`. -/
inductive AlterAction where
  | addColumn (column : ColSpec)
  | dropColumn (columnName : String)
  | renameColumn (oldName newName : String)
  | modifyColumn (column : ColSpec)
deriving DecidableEq, Repr

/-- The select list: `'*'` or explicit column names. -/
inductive SelCols where
  | star
  | cols (names : List String)
deriving DecidableEq, Repr

/-- `INNER | LEFT | RIGHT`. -/
inductive JoinType where
  | inner | left | right
deriving DecidableEq, Repr

/-- `interface JoinClause`. -/
structure JoinClause where
  type : JoinType
  table : String
  leftColumn : String
  rightColumn : String
deriving DecidableEq, Repr

/-- `ASC | DESC`. -/
inductive OrderDirection where
  | asc | desc
deriving DecidableEq, Repr

/-- `interface OrderByClause`. -/
structure OrderByClause where
  column : String
  direction : OrderDirection
deriving DecidableEq, Repr

/-- `type SQLStatement` (the transactional snapshot's variant list).  The
`ifNotExists` / `ifExists` flags exist in the statement types but are never
set by the parser present in `src/`; they are carried as plain booleans. -/
inductive Statement where
  | createTable (tableName : String) (columns : List ColSpec) (ifNotExists : Bool)
  | alterTable (tableName : String) (action : AlterAction)
  | dropTable (tableName : String) (ifExists : Bool)
  | insert (tableName : String) (columns : Option (List String))
      (values : List (List Value))
  | selectStmt (columns : SelCols) (fromTable : String)
      (whereC : Option WhereClause) (join : Option JoinClause)
      (orderBy : Option OrderByClause) (limit : Option Nat)
  | update (tableName : String) (setList : List (String × Value))
      (whereC : Option WhereClause)
  | deleteStmt (fromTable : String) (whereC : Option WhereClause)
  | showTables
  | describe (tableName : String)
  | beginTxn
  | commitTxn
  | rollbackTxn
deriving DecidableEq, Repr

/-! ## BaseParser (`lib/parser/BaseParser.ts`)

The mutable token cursor is embedded as functions from a token list to
`Except` of a result together with the unconsumed tokens. -/

/-- A parser step: result and unconsumed tokens, or a syntax error. -/
abbrev PR (α : Type) := Except DatabaseError (α × List Token)

/-- The synthetic EOF token produced when reading past the end of the token
array (its `position` field is a cursor index in the original and is never
inspected by any claim). -/
def eofToken : Token := { type := .EOF, value := "", position := 0 }

/-- `this.currentToken`. -/
def curTok (ts : List Token) : Token := ts.headD eofToken

/-- `createSyntaxError`: message plus the offending token's position. -/
def createSyntaxError (message : String) (ts : List Token) : DatabaseError :=
  .syntaxError (message ++ " at position " ++ toString (curTok ts).position)

/-- `consume`: take a token of the expected type or fail. -/
def consume (t : TokenType) (errorMessage : Option String) (ts : List Token) :
    PR Token :=
  if (curTok ts).type = t then .ok (curTok ts, ts.tail)
  else
    .error
      (createSyntaxError
        (errorMessage.getD
          ("Expected " ++ t.name ++ ", got " ++ (curTok ts).type.name)) ts)

theorem consume_rest_le (t : TokenType) (msg : Option String) (ts : List Token)
    (tok : Token) (rest : List Token) (h : consume t msg ts = .ok (tok, rest)) :
    rest.length ≤ ts.length := by
  simp only [consume] at h
  split_ifs at h
  · injection h with h2
    injection h2 with h3 h4
    subst h4
    cases ts <;> simp

theorem consume_rest_lt (t : TokenType) (msg : Option String) (ts : List Token)
    (tok : Token) (rest : List Token) (ht : t ≠ .EOF)
    (h : consume t msg ts = .ok (tok, rest)) :
    rest.length < ts.length := by
  simp only [consume] at h
  split_ifs at h with hc
  · injection h with h2
    injection h2 with h3 h4
    subst h4
    cases ts with
    | nil => simp [curTok, eofToken] at hc; exact absurd hc.symm ht
    | cons a l => simp

/-- `parseIdentifier`. -/
def parseIdentifier (ts : List Token) : PR String :=
  match consume .IDENTIFIER (some "Expected identifier") ts with
  | .error e => .error e
  | .ok (tok, rest) => .ok (tok.value, rest)

theorem parseIdentifier_rest_lt (ts : List Token) (x : String)
    (rest : List Token) (h : parseIdentifier ts = .ok (x, rest)) :
    rest.length < ts.length := by
  simp only [parseIdentifier] at h
  split at h
  · exact absurd h (by simp)
  · rename_i tok rest2 hc
    injection h with h2
    injection h2 with h3 h4
    subst h4
    exact consume_rest_lt _ _ _ _ _ (by simp) hc

/-- `parseQualifiedIdentifier`: an identifier with an optional
`table.column` qualifier. -/
def parseQualifiedIdentifier (ts : List Token) :
    PR (Option String × String) :=
  match parseIdentifier ts with
  | .error e => .error e
  | .ok (first, ts1) =>
      if (curTok ts1).type = .DOT then
        match parseIdentifier ts1.tail with
        | .error e => .error e
        | .ok (column, ts2) => .ok ((some first, column), ts2)
      else .ok ((none, first), ts1)

theorem parseQualifiedIdentifier_rest_lt (ts : List Token)
    (x : Option String × String) (rest : List Token)
    (h : parseQualifiedIdentifier ts = .ok (x, rest)) :
    rest.length < ts.length := by
  simp only [parseQualifiedIdentifier] at h
  split at h
  · exact absurd h (by simp)
  · rename_i first ts1 h1
    have hlt1 := parseIdentifier_rest_lt _ _ _ h1
    split_ifs at h
    · split at h
      · exact absurd h (by simp)
      · rename_i column ts2 h2
        have hlt2 := parseIdentifier_rest_lt _ _ _ h2
        injection h with h3
        injection h3 with h4 h5
        subst h5
        have : ts1.tail.length ≤ ts1.length := by cases ts1 <;> simp
        omega
    · injection h with h3
      injection h3 with h4 h5
      subst h5
      exact hlt1

/-- `parseLiteral`: string, number, `TRUE`, `FALSE` or `NULL`. -/
def parseLiteral (ts : List Token) : PR Value :=
  match (curTok ts).type with
  | .STRING => .ok (.str (curTok ts).value, ts.tail)
  | .NUMBER => .ok (.num ((parseFloatJS (curTok ts).value).getD 0), ts.tail)
  | .TRUE => .ok (.bool true, ts.tail)
  | .FALSE => .ok (.bool false, ts.tail)
  | .NULL => .ok (.null, ts.tail)
  | _ => .error (createSyntaxError "Expected literal value" ts)

theorem parseLiteral_rest_lt (ts : List Token) (x : Value) (rest : List Token)
    (h : parseLiteral ts = .ok (x, rest)) : rest.length < ts.length := by
  have hne : ts ≠ [] → rest = ts.tail → rest.length < ts.length := by
    intro hts hr
    subst hr
    cases ts with
    | nil => exact absurd rfl hts
    | cons a l => simp
  have hempty : ts = [] → parseLiteral ts = .error (createSyntaxError "Expected literal value" ts) := by
    intro hts
    subst hts
    simp [parseLiteral, curTok, eofToken]
  by_cases hts : ts = []
  · rw [hempty hts] at h
    exact absurd h (by simp)
  · simp only [parseLiteral] at h
    split at h <;>
      first
        | (injection h with h2; injection h2 with h3 h4; exact hne hts h4.symm)
        | exact absurd h (by simp)

/-- `skipOptionalSemicolon`. -/
def skipOptionalSemicolon (ts : List Token) : List Token :=
  if (curTok ts).type = .SEMICOLON then ts.tail else ts

theorem skipOptionalSemicolon_le (ts : List Token) :
    (skipOptionalSemicolon ts).length ≤ ts.length := by
  simp only [skipOptionalSemicolon]
  split_ifs <;> cases ts <;> simp

/-- The `while (this.match(COMMA))` body of `parseCommaSeparatedList`.

As with the tokenizer loop, the recursion is bounded by a fuel counter so
the definition evaluates in the kernel; every iteration consumes the comma
plus at least one item token (the item parsers' `..._rest_lt` lemmas), so
the fuel of `ts.length + 1` chosen at the call site always suffices. -/
def sepLoop (item : List Token → PR α) :
    Nat → List α → List Token → PR (List α)
  | 0, acc, ts => .ok (acc, ts)
  | _, acc, [] => .ok (acc, [])
  | fuel + 1, acc, t :: tt =>
      if t.type = .COMMA then
        match item tt with
        | .error e => .error e
        | .ok (x, rest) => sepLoop item fuel (acc ++ [x]) rest
      else .ok (acc, t :: tt)

/-- `parseCommaSeparatedList`. -/
def parseCommaSeparatedList (item : List Token → PR α)
    (terminator : TokenType) (ts : List Token) : PR (List α) :=
  if (curTok ts).type = terminator then .ok ([], ts)
  else
    match item ts with
    | .error e => .error e
    | .ok (x, rest) => sepLoop item (rest.length + 1) [x] rest

theorem sepLoop_rest_le (item : List Token → PR α)
    (hitem : ∀ ts x rest, item ts = .ok (x, rest) → rest.length < ts.length) :
    ∀ fuel acc ts (res : List α) rest,
      sepLoop item fuel acc ts = .ok (res, rest) → rest.length ≤ ts.length := by
  intro fuel
  induction fuel with
  | zero =>
      intro acc ts res rest h
      simp only [sepLoop] at h
      injection h with h2
      injection h2 with h3 h4
      subst h4
      exact Nat.le_refl _
  | succ n ih =>
      intro acc ts res rest h
      match ts with
      | [] =>
          simp only [sepLoop] at h
          injection h with h2
          injection h2 with h3 h4
          subst h4
          simp
      | t :: tt =>
          rw [sepLoop] at h
          split_ifs at h with hc
          · split at h
            · exact absurd h (by simp)
            · rename_i x rest2 hi
              have hlt := hitem tt x rest2 hi
              have hrec := ih (acc ++ [x]) rest2 res rest h
              simp only [List.length_cons]
              omega
          · injection h with h2
            injection h2 with h3 h4
            subst h4
            simp

theorem parseCommaSeparatedList_rest_le (item : List Token → PR α)
    (hitem : ∀ ts x rest, item ts = .ok (x, rest) → rest.length < ts.length)
    (terminator : TokenType) (ts : List Token) (res : List α)
    (rest : List Token)
    (h : parseCommaSeparatedList item terminator ts = .ok (res, rest)) :
    rest.length ≤ ts.length := by
  simp only [parseCommaSeparatedList] at h
  split_ifs at h with hc
  · injection h with h2
    injection h2 with h3 h4
    subst h4
    exact Nat.le_refl _
  · split at h
    · exact absurd h (by simp)
    · rename_i x rest2 hi
      have hlt := hitem ts x rest2 hi
      have := sepLoop_rest_le item hitem (rest2.length + 1) [x] rest2 res rest h
      omega

/-- The constraint loop of `parseColumnDefinition`: any sequence of
`PRIMARY KEY`, `UNIQUE`, `NOT NULL`, `AUTO_INCREMENT`.  Fuel-bounded as
with the other loops; each pass consumes one or two tokens. -/
def constraintLoop : Nat → List ColumnConstraint →
    List Token → PR (List ColumnConstraint)
  | 0, acc, ts => .ok (acc, ts)
  | _, acc, [] => .ok (acc, [])
  | fuel + 1, acc, t :: tt =>
      if t.type = .PRIMARY then
        match consume .KEY none tt with
        | .error e => .error e
        | .ok (_, rest) => constraintLoop fuel (acc ++ [.primaryKey]) rest
      else if t.type = .UNIQUE then constraintLoop fuel (acc ++ [.unique]) tt
      else if t.type = .NOT then
        match consume .NULL none tt with
        | .error e => .error e
        | .ok (_, rest) => constraintLoop fuel (acc ++ [.notNull]) rest
      else if t.type = .AUTO_INCREMENT then
        constraintLoop fuel (acc ++ [.autoIncrement]) tt
      else .ok (acc, t :: tt)

theorem constraintLoop_rest_le :
    ∀ fuel (acc : List ColumnConstraint) ts res rest,
      constraintLoop fuel acc ts = .ok (res, rest) → rest.length ≤ ts.length := by
  intro fuel
  induction fuel with
  | zero =>
      intro acc ts res rest h
      simp only [constraintLoop] at h
      injection h with h2
      injection h2 with h3 h4
      subst h4
      exact Nat.le_refl _
  | succ n ih =>
      intro acc ts res rest h
      match ts with
      | [] =>
          simp only [constraintLoop] at h
          injection h with h2
          injection h2 with h3 h4
          subst h4
          simp
      | t :: tt =>
          rw [constraintLoop] at h
          split_ifs at h with h1 h2 h3 h4
          · split at h
            · exact absurd h (by simp)
            · rename_i tok rest2 hcons
              have hle := consume_rest_le _ _ _ _ _ hcons
              have := ih _ rest2 res rest h
              simp only [List.length_cons]
              omega
          · have := ih _ tt res rest h
            simp only [List.length_cons]
            omega
          · split at h
            · exact absurd h (by simp)
            · rename_i tok rest2 hcons
              have hle := consume_rest_le _ _ _ _ _ hcons
              have := ih _ rest2 res rest h
              simp only [List.length_cons]
              omega
          · have := ih _ tt res rest h
            simp only [List.length_cons]
            omega
          · injection h with h2
            injection h2 with h3 h4
            subst h4
            simp

/-- `parseColumnDefinition`: name, data type, constraints. -/
def parseColumnDefinition (ts : List Token) : PR ColSpec :=
  match parseIdentifier ts with
  | .error e => .error e
  | .ok (name, ts1) =>
      let dataTypeToken := (curTok ts1).value
      if ¬ isValidDataType dataTypeToken then
        .error (createSyntaxError ("Invalid data type: " ++ dataTypeToken) ts1)
      else
        match constraintLoop (ts1.length + 1) [] ts1.tail with
        | .error e => .error e
        | .ok (constraints, ts2) =>
            .ok ({ name := name, dataType := dataTypeOfString dataTypeToken
                   constraints := constraints }, ts2)

theorem parseColumnDefinition_rest_lt (ts : List Token) (x : ColSpec)
    (rest : List Token) (h : parseColumnDefinition ts = .ok (x, rest)) :
    rest.length < ts.length := by
  simp only [parseColumnDefinition] at h
  split at h
  · exact absurd h (by simp)
  · rename_i name ts1 h1
    have hlt1 := parseIdentifier_rest_lt _ _ _ h1
    split_ifs at h
    · split at h
      · exact absurd h (by simp)
      · rename_i constraints ts2 h2
        have hle := constraintLoop_rest_le (ts1.length + 1) [] ts1.tail _ _ h2
        injection h with h3
        injection h3 with h4 h5
        subst h5
        have : ts1.tail.length ≤ ts1.length := by cases ts1 <;> simp
        omega

/-- `parseSimpleCondition`: `column OP literal`. -/
def parseSimpleCondition (ts : List Token) : PR Cond :=
  match parseIdentifier ts with
  | .error e => .error e
  | .ok (column, ts1) =>
      let opRes : Except DatabaseError (CompOp × List Token) :=
        match (curTok ts1).type with
        | .EQUALS => .ok (.eq, ts1.tail)
        | .NOT_EQUALS => .ok (.ne, ts1.tail)
        | .GREATER_EQUAL => .ok (.ge, ts1.tail)
        | .LESS_EQUAL => .ok (.le, ts1.tail)
        | .GREATER_THAN => .ok (.gt, ts1.tail)
        | .LESS_THAN => .ok (.lt, ts1.tail)
        | .LIKE => .ok (.like, ts1.tail)
        | _ => .error (createSyntaxError "Expected comparison operator" ts1)
      match opRes with
      | .error e => .error e
      | .ok (op, ts2) =>
          match parseLiteral ts2 with
          | .error e => .error e
          | .ok (value, ts3) => .ok (.cond column op value, ts3)

theorem parseSimpleCondition_rest_lt (ts : List Token) (x : Cond)
    (rest : List Token) (h : parseSimpleCondition ts = .ok (x, rest)) :
    rest.length < ts.length := by
  simp only [parseSimpleCondition] at h
  split at h
  · exact absurd h (by simp)
  · rename_i column ts1 h1
    have hlt1 := parseIdentifier_rest_lt _ _ _ h1
    split at h
    · exact absurd h (by simp)
    · rename_i op ts2 hop
      have hle2 : ts2.length ≤ ts1.length := by
        split at hop <;>
          first
            | (injection hop with h2; injection h2 with h3 h4; subst h4;
                cases ts1 <;> simp)
            | exact absurd hop (by simp)
      split at h
      · exact absurd h (by simp)
      · rename_i value ts3 h3
        have hlt3 := parseLiteral_rest_lt _ _ _ h3
        injection h with h4
        injection h4 with h5 h6
        subst h6
        omega

/-- The `while (this.match(AND, OR))` loop of `parseCondition`:
left-associative flattening with AND and OR at equal precedence.
Fuel-bounded; each pass consumes the connective and a simple condition. -/
def condLoop : Nat → Cond → List Token → PR Cond
  | 0, left, ts => .ok (left, ts)
  | _, left, [] => .ok (left, [])
  | fuel + 1, left, t :: tt =>
      if t.type = .AND ∨ t.type = .OR then
        match parseSimpleCondition tt with
        | .error e => .error e
        | .ok (right, rest) =>
            condLoop fuel
              (.logical (if t.type = .AND then .and else .or) left right) rest
      else .ok (left, t :: tt)

theorem condLoop_rest_le :
    ∀ fuel (left : Cond) ts res rest,
      condLoop fuel left ts = .ok (res, rest) → rest.length ≤ ts.length := by
  intro fuel
  induction fuel with
  | zero =>
      intro left ts res rest h
      simp only [condLoop] at h
      injection h with h2
      injection h2 with h3 h4
      subst h4
      exact Nat.le_refl _
  | succ n ih =>
      intro left ts res rest h
      match ts with
      | [] =>
          simp only [condLoop] at h
          injection h with h2
          injection h2 with h3 h4
          subst h4
          simp
      | t :: tt =>
          rw [condLoop] at h
          by_cases h1 : (t.type = .AND ∨ t.type = .OR)
          · rw [if_pos h1] at h
            split at h
            · exact absurd h (by simp)
            · rename_i right rest2 hsc
              have hlt := parseSimpleCondition_rest_lt _ _ _ hsc
              have := ih _ rest2 res rest h
              simp only [List.length_cons]
              omega
          · rw [if_neg h1] at h
            injection h with h2
            injection h2 with h3 h4
            subst h4
            simp

/-- `parseCondition`: a simple condition followed by the AND/OR loop. -/
def parseCondition (ts : List Token) : PR Cond :=
  match parseSimpleCondition ts with
  | .error e => .error e
  | .ok (left, ts1) => condLoop (ts1.length + 1) left ts1

theorem parseCondition_rest_lt (ts : List Token) (x : Cond)
    (rest : List Token) (h : parseCondition ts = .ok (x, rest)) :
    rest.length < ts.length := by
  simp only [parseCondition] at h
  split at h
  · exact absurd h (by simp)
  · rename_i left ts1 h1
    have hlt1 := parseSimpleCondition_rest_lt _ _ _ h1
    have hle := condLoop_rest_le (ts1.length + 1) left ts1 x rest h
    omega

/-- `parseWhere`. -/
def parseWhere (ts : List Token) : PR WhereClause :=
  match consume .WHERE none ts with
  | .error e => .error e
  | .ok (_, ts1) =>
      match parseCondition ts1 with
      | .error e => .error e
      | .ok (c, ts2) => .ok ([c], ts2)

/-! ## SQLParser (`lib/parser/SQLParser.ts`) -/

/-- `parseCreateTable`.  The source parser never sets `ifNotExists`. -/
def parseCreateTable (ts : List Token) : PR Statement :=
  match consume .CREATE none ts with
  | .error e => .error e
  | .ok (_, ts1) =>
      match consume .TABLE none ts1 with
      | .error e => .error e
      | .ok (_, ts2) =>
          match parseIdentifier ts2 with
          | .error e => .error e
          | .ok (tableName, ts3) =>
              match consume .LEFT_PAREN none ts3 with
              | .error e => .error e
              | .ok (_, ts4) =>
                  match parseCommaSeparatedList parseColumnDefinition
                      .RIGHT_PAREN ts4 with
                  | .error e => .error e
                  | .ok (columns, ts5) =>
                      match consume .RIGHT_PAREN none ts5 with
                      | .error e => .error e
                      | .ok (_, ts6) =>
                          .ok (.createTable tableName columns false,
                            skipOptionalSemicolon ts6)

/-- `parseAlterTable`.  The source matches the token types `ADD`, `RENAME`
and `MODIFY` and consumes `COLUMN` and `TO`, none of which exist in the
tokenizer's enum (see the claim on the keyword list): in the compiled
original those members are `undefined`, so `match` on them never fires and
`consume` on them always throws.  The reachable behaviour is embedded: the
`DROP` branch (whose leading token type does exist) reaches the impossible
`consume(COLUMN)` and fails, and every other word falls through to the
"Unsupported ALTER TABLE action" error. -/
def parseAlterTable (ts : List Token) : PR Statement :=
  match consume .ALTER none ts with
  | .error e => .error e
  | .ok (_, ts1) =>
      match consume .TABLE none ts1 with
      | .error e => .error e
      | .ok (_, ts2) =>
          match parseIdentifier ts2 with
          | .error e => .error e
          | .ok (tableName, ts3) =>
              if (curTok ts3).type = .DROP then
                -- `this.consume(TokenType.COLUMN)` with an absent member:
                -- no token has an undefined type, so this always fails.
                .error
                  (createSyntaxError
                    ("Expected undefined, got " ++ (curTok ts3.tail).type.name)
                    ts3.tail)
              else
                .error (createSyntaxError "Unsupported ALTER TABLE action" ts3)

/-- `parseDropTable`. -/
def parseDropTable (ts : List Token) : PR Statement :=
  match consume .DROP none ts with
  | .error e => .error e
  | .ok (_, ts1) =>
      match consume .TABLE none ts1 with
      | .error e => .error e
      | .ok (_, ts2) =>
          match parseIdentifier ts2 with
          | .error e => .error e
          | .ok (tableName, ts3) =>
              .ok (.dropTable tableName false, skipOptionalSemicolon ts3)

/-- The select-list item: a possibly qualified identifier, of which only
the column part is kept. -/
def parseSelectColumn (ts : List Token) : PR String :=
  match parseQualifiedIdentifier ts with
  | .error e => .error e
  | .ok (qc, rest) => .ok (qc.2, rest)

theorem parseSelectColumn_rest_lt (ts : List Token) (x : String)
    (rest : List Token) (h : parseSelectColumn ts = .ok (x, rest)) :
    rest.length < ts.length := by
  simp only [parseSelectColumn] at h
  split at h
  · exact absurd h (by simp)
  · rename_i qc rest2 hq
    injection h with h2
    injection h2 with h3 h4
    subst h4
    exact parseQualifiedIdentifier_rest_lt _ _ _ hq

/-- `parseJoin`. -/
def parseJoin (ts : List Token) : PR JoinClause :=
  let typed : JoinType × List Token :=
    if (curTok ts).type = .INNER then (.inner, ts.tail)
    else if (curTok ts).type = .LEFT then (.left, ts.tail)
    else if (curTok ts).type = .RIGHT then (.right, ts.tail)
    else (.inner, ts)
  match consume .JOIN none typed.2 with
  | .error e => .error e
  | .ok (_, ts1) =>
      match parseIdentifier ts1 with
      | .error e => .error e
      | .ok (table, ts2) =>
          match consume .ON none ts2 with
          | .error e => .error e
          | .ok (_, ts3) =>
              match parseIdentifier ts3 with
              | .error e => .error e
              | .ok (leftColumn, ts4) =>
                  match consume .EQUALS none ts4 with
                  | .error e => .error e
                  | .ok (_, ts5) =>
                      match parseIdentifier ts5 with
                      | .error e => .error e
                      | .ok (rightColumn, ts6) =>
                          .ok ({ type := typed.1, table := table
                                 leftColumn := leftColumn
                                 rightColumn := rightColumn }, ts6)

/-- `parseOrderBy`. -/
def parseOrderBy (ts : List Token) : PR OrderByClause :=
  match consume .ORDER none ts with
  | .error e => .error e
  | .ok (_, ts1) =>
      match consume .BY none ts1 with
      | .error e => .error e
      | .ok (_, ts2) =>
          match parseIdentifier ts2 with
          | .error e => .error e
          | .ok (column, ts3) =>
              if (curTok ts3).type = .ASC then
                .ok ({ column := column, direction := .asc }, ts3.tail)
              else if (curTok ts3).type = .DESC then
                .ok ({ column := column, direction := .desc }, ts3.tail)
              else .ok ({ column := column, direction := .asc }, ts3)

/-- `parseSelect`. -/
def parseSelect (ts : List Token) : PR Statement :=
  match consume .SELECT none ts with
  | .error e => .error e
  | .ok (_, ts1) =>
      let colsRes : Except DatabaseError (SelCols × List Token) :=
        if (curTok ts1).type = .ASTERISK then .ok (.star, ts1.tail)
        else
          match parseCommaSeparatedList parseSelectColumn .FROM ts1 with
          | .error e => .error e
          | .ok (names, rest) => .ok (.cols names, rest)
      match colsRes with
      | .error e => .error e
      | .ok (columns, ts2) =>
          match consume .FROM none ts2 with
          | .error e => .error e
          | .ok (_, ts3) =>
              match parseIdentifier ts3 with
              | .error e => .error e
              | .ok (fromTable, ts4) =>
                  let joinRes : Except DatabaseError (Option JoinClause × List Token) :=
                    if (curTok ts4).type = .INNER ∨ (curTok ts4).type = .LEFT ∨
                        (curTok ts4).type = .RIGHT ∨ (curTok ts4).type = .JOIN then
                      match parseJoin ts4 with
                      | .error e => .error e
                      | .ok (j, rest) => .ok (some j, rest)
                    else .ok (none, ts4)
                  match joinRes with
                  | .error e => .error e
                  | .ok (join, ts5) =>
                      let whereRes : Except DatabaseError (Option WhereClause × List Token) :=
                        if (curTok ts5).type = .WHERE then
                          match parseWhere ts5 with
                          | .error e => .error e
                          | .ok (w, rest) => .ok (some w, rest)
                        else .ok (none, ts5)
                      match whereRes with
                      | .error e => .error e
                      | .ok (whereC, ts6) =>
                          let orderRes : Except DatabaseError (Option OrderByClause × List Token) :=
                            if (curTok ts6).type = .ORDER then
                              match parseOrderBy ts6 with
                              | .error e => .error e
                              | .ok (o, rest) => .ok (some o, rest)
                            else .ok (none, ts6)
                          match orderRes with
                          | .error e => .error e
                          | .ok (orderBy, ts7) =>
                              let limitRes : Except DatabaseError (Option Nat × List Token) :=
                                if (curTok ts7).type = .LIMIT then
                                  match consume .NUMBER none ts7.tail with
                                  | .error e => .error e
                                  | .ok (tok, rest) =>
                                      .ok (some ((parseIntJS tok.value).getD 0).toNat, rest)
                                else .ok (none, ts7)
                              match limitRes with
                              | .error e => .error e
                              | .ok (limit, ts8) =>
                                  .ok (.selectStmt columns fromTable whereC join
                                      orderBy limit,
                                    skipOptionalSemicolon ts8)

/-- The parenthesised literal group of an INSERT's VALUES list. -/
def parseValuesGroup (ts : List Token) : PR (List Value) :=
  match consume .LEFT_PAREN none ts with
  | .error e => .error e
  | .ok (_, ts1) =>
      match parseCommaSeparatedList parseLiteral .RIGHT_PAREN ts1 with
      | .error e => .error e
      | .ok (rowValues, ts2) =>
          match consume .RIGHT_PAREN none ts2 with
          | .error e => .error e
          | .ok (_, ts3) => .ok (rowValues, ts3)

theorem parseValuesGroup_rest_lt (ts : List Token) (x : List Value)
    (rest : List Token) (h : parseValuesGroup ts = .ok (x, rest)) :
    rest.length < ts.length := by
  simp only [parseValuesGroup] at h
  split at h
  · exact absurd h (by simp)
  · rename_i tok1 ts1 h1
    have hlt1 := consume_rest_lt _ _ _ _ _ (by simp) h1
    split at h
    · exact absurd h (by simp)
    · rename_i vals ts2 h2
      have hle2 := parseCommaSeparatedList_rest_le parseLiteral
        parseLiteral_rest_lt _ _ _ _ h2
      split at h
      · exact absurd h (by simp)
      · rename_i tok3 ts3 h3
        have hle3 := consume_rest_le _ _ _ _ _ h3
        injection h with h4
        injection h4 with h5 h6
        subst h6
        omega

/-- The exit step of the VALUES do/while loop.  The source's condition is
`this.match(COMMA) && this.advance() !== undefined`; `advance()` returns
`void` (`undefined`), so the right conjunct is always false and the loop
body runs exactly once.  Evaluating the condition still has a side effect:
when a comma follows the first group, `match` leaves it in place and
`advance()` consumes it.  Any further VALUES groups stay unconsumed. -/
def valuesTail (ts : List Token) : List Token :=
  if (curTok ts).type = .COMMA then ts.tail else ts

/-- `parseInsert`. -/
def parseInsert (ts : List Token) : PR Statement :=
  match consume .INSERT none ts with
  | .error e => .error e
  | .ok (_, ts1) =>
      match consume .INTO none ts1 with
      | .error e => .error e
      | .ok (_, ts2) =>
          match parseIdentifier ts2 with
          | .error e => .error e
          | .ok (tableName, ts3) =>
              let columnsRes : Except DatabaseError (Option (List String) × List Token) :=
                if (curTok ts3).type = .LEFT_PAREN then
                  match parseCommaSeparatedList parseIdentifier
                      .RIGHT_PAREN ts3.tail with
                  | .error e => .error e
                  | .ok (columns, rest) =>
                      match consume .RIGHT_PAREN none rest with
                      | .error e => .error e
                      | .ok (_, rest2) => .ok (some columns, rest2)
                else .ok (none, ts3)
              match columnsRes with
              | .error e => .error e
              | .ok (columns, ts4) =>
                  match consume .VALUES none ts4 with
                  | .error e => .error e
                  | .ok (_, ts5) =>
                      match parseValuesGroup ts5 with
                      | .error e => .error e
                      | .ok (firstGroup, ts6) =>
                          .ok (.insert tableName columns [firstGroup],
                            skipOptionalSemicolon (valuesTail ts6))

/-- The assignment item of an UPDATE's SET list. -/
def parseSetItem (ts : List Token) : PR (String × Value) :=
  match parseIdentifier ts with
  | .error e => .error e
  | .ok (column, ts1) =>
      match consume .EQUALS none ts1 with
      | .error e => .error e
      | .ok (_, ts2) =>
          match parseLiteral ts2 with
          | .error e => .error e
          | .ok (value, ts3) => .ok ((column, value), ts3)

theorem parseSetItem_rest_lt (ts : List Token) (x : String × Value)
    (rest : List Token) (h : parseSetItem ts = .ok (x, rest)) :
    rest.length < ts.length := by
  simp only [parseSetItem] at h
  split at h
  · exact absurd h (by simp)
  · rename_i column ts1 h1
    have hlt1 := parseIdentifier_rest_lt _ _ _ h1
    split at h
    · exact absurd h (by simp)
    · rename_i tok ts2 h2
      have hle2 := consume_rest_le _ _ _ _ _ h2
      split at h
      · exact absurd h (by simp)
      · rename_i value ts3 h3
        have hlt3 := parseLiteral_rest_lt _ _ _ h3
        injection h with h4
        injection h4 with h5 h6
        subst h6
        omega

/-- `parseUpdate`. -/
def parseUpdate (ts : List Token) : PR Statement :=
  match consume .UPDATE none ts with
  | .error e => .error e
  | .ok (_, ts1) =>
      match parseIdentifier ts1 with
      | .error e => .error e
      | .ok (tableName, ts2) =>
          match consume .SET none ts2 with
          | .error e => .error e
          | .ok (_, ts3) =>
              match parseCommaSeparatedList parseSetItem .WHERE ts3 with
              | .error e => .error e
              | .ok (setList, ts4) =>
                  let whereRes : Except DatabaseError (Option WhereClause × List Token) :=
                    if (curTok ts4).type = .WHERE then
                      match parseWhere ts4 with
                      | .error e => .error e
                      | .ok (w, rest) => .ok (some w, rest)
                    else .ok (none, ts4)
                  match whereRes with
                  | .error e => .error e
                  | .ok (whereC, ts5) =>
                      .ok (.update tableName setList whereC,
                        skipOptionalSemicolon ts5)

/-- `parseDelete`. -/
def parseDelete (ts : List Token) : PR Statement :=
  match consume .DELETE none ts with
  | .error e => .error e
  | .ok (_, ts1) =>
      match consume .FROM none ts1 with
      | .error e => .error e
      | .ok (_, ts2) =>
          match parseIdentifier ts2 with
          | .error e => .error e
          | .ok (fromTable, ts3) =>
              let whereRes : Except DatabaseError (Option WhereClause × List Token) :=
                if (curTok ts3).type = .WHERE then
                  match parseWhere ts3 with
                  | .error e => .error e
                  | .ok (w, rest) => .ok (some w, rest)
                else .ok (none, ts3)
              match whereRes with
              | .error e => .error e
              | .ok (whereC, ts4) =>
                  .ok (.deleteStmt fromTable whereC, skipOptionalSemicolon ts4)

/-- `parseShowTables`. -/
def parseShowTables (ts : List Token) : PR Statement :=
  match consume .SHOW none ts with
  | .error e => .error e
  | .ok (_, ts1) =>
      match consume .TABLES none ts1 with
      | .error e => .error e
      | .ok (_, ts2) => .ok (.showTables, skipOptionalSemicolon ts2)

/-- `parseDescribe`. -/
def parseDescribe (ts : List Token) : PR Statement :=
  match consume .DESCRIBE none ts with
  | .error e => .error e
  | .ok (_, ts1) =>
      match parseIdentifier ts1 with
      | .error e => .error e
      | .ok (tableName, ts2) => .ok (.describe tableName, skipOptionalSemicolon ts2)

/-- `SQLParser.parse`: dispatch on the first token.  The `src/` parser has
no branches for transaction control; the final three branches are modelled
from the spec (see `parseStatement`). -/
def parseDispatch (ts : List Token) : PR Statement :=
  if (curTok ts).type = .CREATE then parseCreateTable ts
  else if (curTok ts).type = .ALTER then parseAlterTable ts
  else if (curTok ts).type = .DROP then parseDropTable ts
  else if (curTok ts).type = .INSERT then parseInsert ts
  else if (curTok ts).type = .SELECT then parseSelect ts
  else if (curTok ts).type = .UPDATE then parseUpdate ts
  else if (curTok ts).type = .DELETE then parseDelete ts
  else if (curTok ts).type = .SHOW then parseShowTables ts
  else if (curTok ts).type = .DESCRIBE then parseDescribe ts
  else .error (createSyntaxError "Unknown SQL statement" ts)

/-- Modelled from the spec: the transaction-aware parser revision is absent
from `src/` (only its statement types and the session dispatch over `BEGIN`,
`COMMIT` and `ROLLBACK` statements are present).  Per the spec, the words
BEGIN, COMMIT and ROLLBACK are reserved and parse to the corresponding
control statements, each ending at an optional semicolon.  With the `src/`
tokenizer these words surface as identifier tokens, on which the modelled
branch dispatches. -/
def parseStatement (ts : List Token) : PR Statement :=
  if (curTok ts).type = .IDENTIFIER ∧ jsToUpper (curTok ts).value = "BEGIN" then
    .ok (.beginTxn, skipOptionalSemicolon ts.tail)
  else if (curTok ts).type = .IDENTIFIER ∧ jsToUpper (curTok ts).value = "COMMIT" then
    .ok (.commitTxn, skipOptionalSemicolon ts.tail)
  else if (curTok ts).type = .IDENTIFIER ∧ jsToUpper (curTok ts).value = "ROLLBACK" then
    .ok (.rollbackTxn, skipOptionalSemicolon ts.tail)
  else parseDispatch ts

/-- The `SQLParser` constructor plus `parse()`: tokenize and parse.  (The
session passes `sql.trim()`.) -/
def parseSQL (input : String) : Except DatabaseError (Statement × List Token) :=
  parseStatement (Tokenizer.tokenize input)

/-! ## Query results (`lib/types/query.ts`)

The `executionTime` field of every result is omitted (wall clock). -/

/-- `type QueryResult`: the discriminated result union; `success` is the
constructor being `errorRes` or not. -/
inductive QueryResult where
  | select (rows : List Row) (rowCount : Nat)
  | insertRes (rowsAffected : Nat) (lastInsertId : Option Int)
  | updateRes (rowsAffected : Nat)
  | deleteRes (rowsAffected : Nat)
  | createTableRes (tableName : String)
  | dropTableRes (tableName : String)
  | showTablesRes (tables : List String)
  | describeRes (schema : TableSchema)
  | okRes
  | errorRes (error : DatabaseError)
deriving DecidableEq, Repr

/-- The catalog: the session's `Map<string, TableStorage>`. -/
abbrev Catalog := Jmap String TableStorage

/-! ## SelectExecutor (the executor snapshot's `SelectExecutor`) -/

namespace SelectExecutor

/-- `normalizeForComparison`: strings compare case-insensitively. -/
def normalizeForComparison (value : Value) : Value :=
  match value with
  | .str s => .str (jsToLower s)
  | v => v

/-- `toNumber`: numeric coercion for the ordering operators. -/
def toNumber (value : Value) : Option JSNum :=
  match value with
  | .num q => some q
  | .date ms => some ms
  | .str s => parseFloatJS s
  | _ => none

/-- `numericCompare`: difference of the coerced operands, `0` when either
does not coerce. -/
def numericCompare (left right : Value) : JSNum :=
  match toNumber left, toNumber right with
  | some l, some r => l.sub r
  | _, _ => ⟨0, 1⟩

/-- The anchored, case-insensitive matcher of the LIKE regex: `%` matches
any sequence, `_` any single character, everything else literally. -/
def likeMatch : List Char → List Char → Bool
  | [], [] => true
  | [], _ :: _ => false
  | '%' :: p, [] => likeMatch p []
  | '%' :: p, c :: t => likeMatch p (c :: t) || likeMatch ('%' :: p) t
  | '_' :: p, [] => false
  | '_' :: p, _ :: t => likeMatch p t
  | _ :: _, [] => false
  | a :: p, c :: t => a = c && likeMatch p t
termination_by p t => (p.length, t.length)

/-- `likeCompare`: both sides must be strings; matching is case-insensitive
and anchored at both ends. -/
def likeCompare (left pattern : Value) : Bool :=
  match left, pattern with
  | .str l, .str p => likeMatch (jsToLower p).toList (jsToLower l).toList
  | _, _ => false

/-- `compareValues`. -/
def compareValues (left : Value) (operator : CompOp) (right : Value) : Bool :=
  if left = .null ∨ right = .null then
    if operator = .eq then left = right
    else if operator = .ne then left ≠ right
    else false
  else
    match operator with
    | .eq => normalizeForComparison left = normalizeForComparison right
    | .ne => normalizeForComparison left ≠ normalizeForComparison right
    | .gt => JSNum.jlt ⟨0, 1⟩ (numericCompare left right)
    | .lt => JSNum.jlt (numericCompare left right) ⟨0, 1⟩
    | .ge => JSNum.jle ⟨0, 1⟩ (numericCompare left right)
    | .le => JSNum.jle (numericCompare left right) ⟨0, 1⟩
    | .like => likeCompare left right

/-- `evaluateCondition`. -/
def evaluateCondition (row : Row) : Cond → Bool
  | .logical op l r =>
      let leftResult := evaluateCondition row l
      let rightResult := evaluateCondition row r
      match op with
      | .and => leftResult && rightResult
      | .or => leftResult || rightResult
  | .cond column operator value =>
      let columnValue := (rowGet row column).getD .null
      compareValues columnValue operator value

/-- `filterRows`: every condition of the WHERE clause must hold. -/
def filterRows (rows : List Row) (whereC : WhereClause) : List Row :=
  rows.filter (fun row => whereC.all (fun c => evaluateCondition row c))

/-- `projectColumns`. -/
def projectColumns (rows : List Row) (columns : List String) : List Row :=
  rows.map
    (fun row =>
      columns.foldl
        (fun projected column =>
          match rowGet row column with
          | some v => rowSet projected column v
          | none => rowSet projected column .null)
        [])

/-- `String(x)` for the sort comparator (`undefined` prints as such). -/
def jsStringOf (v : Option Value) : String :=
  match v with
  | none => "undefined"
  | some x => displayValue x

/-- `String.prototype.localeCompare`, approximated by code-point order
(exact for the ASCII data this engine specifies). -/
def localeCompare (a b : String) : Int :=
  if a < b then -1 else if b < a then 1 else 0

/-- The ORDER BY comparator. -/
def sortCompare (aVal bVal : Option Value) : JSNum :=
  if aVal = some .null ∧ bVal = some .null then ⟨0, 1⟩
  else if aVal = some .null then ⟨1, 1⟩
  else if bVal = some .null then ⟨-1, 1⟩
  else
    match aVal, bVal with
    | some (.num x), some (.num y) => x.sub y
    | some (.date x), some (.date y) => x.sub y
    | a, b => JSNum.ofInt (localeCompare (jsStringOf a) (jsStringOf b))

/-- `sortRows`: a stable sort by the comparator, negated for `DESC`. -/
def sortRows (rows : List Row) (column : String) (direction : OrderDirection) :
    List Row :=
  rows.mergeSort
    (fun a b =>
      let result := sortCompare (rowGet a column) (rowGet b column)
      (if direction = .desc then result.neg else result).jle ⟨0, 1⟩)

/-- `mergeRows`: prefix every column with its table name. -/
def mergeRows (left right : Option Row) (leftTableName rightTableName : String) :
    Row :=
  let withLeft :=
    match left with
    | some l =>
        l.foldl (fun m p => rowSet m (leftTableName ++ "." ++ p.1) p.2) []
    | none => []
  match right with
  | some r =>
      r.foldl (fun m p => rowSet m (rightTableName ++ "." ++ p.1) p.2) withLeft
  | none => withLeft

/-- `nullRow`: a row with the template's keys, all `NULL`. -/
def nullRow (template : Option Row) : Row :=
  match template with
  | none => []
  | some t => t.map (fun p => (p.1, Value.null))

/-- `executeJoin`: nested-loop join with strict key equality. -/
def executeJoin (leftRows rightRows : List Row) (joinType : JoinType)
    (leftColumn rightColumn : String) (leftTableName rightTableName : String) :
    List Row :=
  match joinType with
  | .inner =>
      leftRows.flatMap
        (fun leftRow =>
          (rightRows.filter
              (fun rightRow =>
                rowGet leftRow leftColumn = rowGet rightRow rightColumn)).map
            (fun rightRow =>
              mergeRows (some leftRow) (some rightRow) leftTableName
                rightTableName))
  | .left =>
      leftRows.flatMap
        (fun leftRow =>
          let matched :=
            rightRows.filter
              (fun rightRow =>
                rowGet leftRow leftColumn = rowGet rightRow rightColumn)
          if matched.isEmpty then
            [mergeRows (some leftRow) (some (nullRow rightRows.head?))
                leftTableName rightTableName]
          else
            matched.map
              (fun rightRow =>
                mergeRows (some leftRow) (some rightRow) leftTableName
                  rightTableName))
  | .right =>
      rightRows.flatMap
        (fun rightRow =>
          let matched :=
            leftRows.filter
              (fun leftRow =>
                rowGet leftRow leftColumn = rowGet rightRow rightColumn)
          if matched.isEmpty then
            [mergeRows (some (nullRow leftRows.head?)) (some rightRow)
                leftTableName rightTableName]
          else
            matched.map
              (fun leftRow =>
                mergeRows (some leftRow) (some rightRow) leftTableName
                  rightTableName))

/-- `SelectExecutor.execute`. -/
def execute (columns : SelCols) (fromTable : String)
    (whereC : Option WhereClause) (join : Option JoinClause)
    (orderBy : Option OrderByClause) (limit : Option Nat) (tables : Catalog) :
    QueryResult :=
  match jmapGet tables fromTable with
  | none => .errorRes (.tableNotFound fromTable)
  | some table =>
      let rows0 := table.rows
      let rows1 :=
        match whereC with
        | some w => filterRows rows0 w
        | none => rows0
      let joined : Except DatabaseError (List Row) :=
        match join with
        | some j =>
            match jmapGet tables j.table with
            | none => .error (.tableNotFound j.table)
            | some joinedTable =>
                .ok (executeJoin rows1 joinedTable.rows j.type j.leftColumn
                  j.rightColumn fromTable j.table)
        | none => .ok rows1
      match joined with
      | .error e => .errorRes e
      | .ok rows2 =>
          let rows3 :=
            match columns with
            | .star => rows2
            | .cols names => projectColumns rows2 names
          let rows4 :=
            match orderBy with
            | some o => sortRows rows3 o.column o.direction
            | none => rows3
          let rows5 :=
            match limit with
            | some n => rows4.take n
            | none => rows4
          .select rows5 rows5.length

end SelectExecutor

/-! ## DeleteExecutor and MetaExecutor (the executor snapshot) -/

namespace DeleteExecutor

/-- `DeleteExecutor.normalize` (a verbatim copy of the select-side
normalisation in the source). -/
def normalize (value : Value) : Value :=
  match value with
  | .str s => .str (jsToLower s)
  | v => v

/-- `DeleteExecutor.toNumber`. -/
def toNumber (value : Value) : Option JSNum :=
  match value with
  | .num q => some q
  | .date ms => some ms
  | .str s => parseFloatJS s
  | _ => none

/-- `DeleteExecutor.numericCompare`. -/
def numericCompare (left right : Value) : JSNum :=
  match toNumber left, toNumber right with
  | some l, some r => l.sub r
  | _, _ => ⟨0, 1⟩

/-- `DeleteExecutor.likeCompare`. -/
def likeCompare (left pattern : Value) : Bool :=
  match left, pattern with
  | .str l, .str p =>
      SelectExecutor.likeMatch (jsToLower p).toList (jsToLower l).toList
  | _, _ => false

/-- `DeleteExecutor.evaluateCondition` (the leaf comparison inlined in the
source). -/
def evaluateCondition (row : Row) : Cond → Bool
  | .logical op l r =>
      let leftResult := evaluateCondition row l
      let rightResult := evaluateCondition row r
      match op with
      | .and => leftResult && rightResult
      | .or => leftResult || rightResult
  | .cond column operator value =>
      let left := (rowGet row column).getD .null
      let right := value
      if left = .null ∨ right = .null then
        if operator = .eq then left = right
        else if operator = .ne then left ≠ right
        else false
      else
        match operator with
        | .eq => normalize left = normalize right
        | .ne => normalize left ≠ normalize right
        | .gt => JSNum.jlt ⟨0, 1⟩ (numericCompare left right)
        | .lt => JSNum.jlt (numericCompare left right) ⟨0, 1⟩
        | .ge => JSNum.jle ⟨0, 1⟩ (numericCompare left right)
        | .le => JSNum.jle (numericCompare left right) ⟨0, 1⟩
        | .like => likeCompare left right

/-- `DeleteExecutor.evaluateWhere`. -/
def evaluateWhere (row : Row) (whereC : WhereClause) : Bool :=
  whereC.all (fun c => evaluateCondition row c)

/-- `DeleteExecutor.execute`.  `deleteRows` mutates the stored table, so
the updated catalog is returned alongside the result. -/
def execute (fromTable : String) (whereC : Option WhereClause)
    (tables : Catalog) : Catalog × QueryResult :=
  match jmapGet tables fromTable with
  | none => (tables, .errorRes (.tableNotFound fromTable))
  | some table =>
      let filter : Row → Nat → Bool :=
        match whereC with
        | some w => fun row _ => evaluateWhere row w
        | none => fun _ _ => true
      let r := table.deleteRows filter
      (jmapSet tables fromTable r.1, .deleteRes r.2)

end DeleteExecutor

namespace MetaExecutor

/-- `MetaExecutor.executeShowTables`: sorted table names. -/
def executeShowTables (tables : Catalog) : QueryResult :=
  .showTablesRes ((tables.map (fun p => p.1)).mergeSort (fun a b => a ≤ b))

/-- `MetaExecutor.executeDescribe`. -/
def executeDescribe (tableName : String) (tables : Catalog) : QueryResult :=
  match jmapGet tables tableName with
  | none => .errorRes (.tableNotFound tableName)
  | some table => .describeRes table.schema

end MetaExecutor

/-! ## InsertExecutor (the executor snapshot's `InsertExecutor`) -/

namespace InsertExecutor

/-- The per-value-row loop: map positional values to column names, insert,
short-circuit on the first failure.  `insertRow` mutates the table (the
auto-increment counter even on failure), so the storage is threaded. -/
def insertLoop (columnNames : List String) :
    TableStorage → List (List Value) → Nat → Option Int →
    (TableStorage × Except DatabaseError (Nat × Option Int))
  | table, [], rowsAffected, lastInsertId =>
      (table, .ok (rowsAffected, lastInsertId))
  | table, valueRow :: restRows, rowsAffected, lastInsertId =>
      if valueRow.length ≠ columnNames.length then
        (table,
          .error
            (.executionError
              ("Column count (" ++ toString columnNames.length ++
                ") does not match value count (" ++ toString valueRow.length ++ ")")))
      else
        let rowData : Row :=
          (columnNames.zip valueRow).foldl (fun m p => rowSet m p.1 p.2) []
        let r := table.insertRow rowData
        match r.2.success, r.2.error with
        | false, some violation =>
            (r.1, .error (.constraintViolation violation))
        | _, _ =>
            insertLoop columnNames r.1 restRows (rowsAffected + 1)
              (match r.2.lastInsertId with
                | some i => some i
                | none => lastInsertId)

/-- `InsertExecutor.execute`. -/
def execute (tableName : String) (columns : Option (List String))
    (values : List (List Value)) (tables : Catalog) : Catalog × QueryResult :=
  match jmapGet tables tableName with
  | none => (tables, .errorRes (.tableNotFound tableName))
  | some table =>
      let schema := table.schema
      let columnNamesRes : Except DatabaseError (List String) :=
        match columns with
        | some cs =>
            match cs.find? (fun c => ¬ schema.columns.any (fun col => col.name = c)) with
            | some missing => .error (.columnNotFound missing none)
            | none => .ok cs
        | none => .ok (schema.columns.map (fun col => col.name))
      match columnNamesRes with
      | .error e => (tables, .errorRes e)
      | .ok columnNames =>
          let r := insertLoop columnNames table values 0 none
          let tables2 := jmapSet tables tableName r.1
          match r.2 with
          | .error e => (tables2, .errorRes e)
          | .ok (rowsAffected, lastInsertId) =>
              (tables2, .insertRes rowsAffected lastInsertId)

end InsertExecutor

/-! ## CreateTableExecutor (the executor snapshot's `CreateTableExecutor`) -/

namespace CreateTableExecutor

/-- The schema-building loop over the parsed column list. -/
structure BuildState where
  columns : List ColumnDefinition
  primaryKey : Option String
  uniqueColumns : List String
deriving DecidableEq, Repr

/-- `CreateTableExecutor.execute`.  A primary-key column is recorded as
unique and not-null; `AUTO_INCREMENT` requires `PRIMARY KEY`; at most one
primary key. -/
def execute (tableName : String) (cols : List ColSpec) (ifNotExists : Bool)
    (tables : Catalog) : Catalog × QueryResult :=
  if jmapHas tables tableName then
    if ifNotExists then (tables, .createTableRes tableName)
    else (tables, .errorRes (.tableAlreadyExists tableName))
  else
    let build :=
      cols.foldl
        (fun acc col =>
          match acc with
          | .error e => .error e
          | .ok st =>
              let isPrimaryKey := col.constraints.contains .primaryKey
              let isUnique := col.constraints.contains .unique
              let isNotNull := col.constraints.contains .notNull
              let isAutoIncrement := col.constraints.contains .autoIncrement
              if isAutoIncrement ∧ ¬ isPrimaryKey then
                .error
                  (DatabaseError.syntaxError
                    "AUTO_INCREMENT can only be used with PRIMARY KEY")
              else if isPrimaryKey ∧ st.primaryKey ≠ none then
                .error (DatabaseError.syntaxError "Multiple primary keys defined")
              else
                .ok
                  { columns := st.columns ++
                      [{ name := col.name, type := col.dataType
                         primaryKey := isPrimaryKey
                         autoIncrement := isAutoIncrement
                         unique := isUnique ∨ isPrimaryKey
                         notNull := isNotNull ∨ isPrimaryKey
                         defaultValue := .null }]
                    primaryKey :=
                      if isPrimaryKey then some col.name else st.primaryKey
                    uniqueColumns :=
                      if isUnique ∨ isPrimaryKey then
                        st.uniqueColumns ++ [col.name]
                      else st.uniqueColumns })
        (Except.ok
          ({ columns := [], primaryKey := none, uniqueColumns := [] } : BuildState))
    match build with
    | .error e => (tables, .errorRes e)
    | .ok st =>
        let schema : TableSchema :=
          { name := tableName, columns := st.columns
            primaryKey := st.primaryKey, uniqueColumns := st.uniqueColumns }
        (jmapSet tables tableName (TableStorage.mk0 schema),
          .createTableRes tableName)

end CreateTableExecutor

/-! ## AlterTableExecutor and DropTableExecutor -/

namespace AlterTableExecutor

/-- `AlterTableExecutor.execute` (successful actions report a `rowsAffected
:= 0` UPDATE result, as in the source). -/
def execute (tableName : String) (action : AlterAction) (tables : Catalog) :
    Catalog × QueryResult :=
  match jmapGet tables tableName with
  | none => (tables, .errorRes (.tableNotFound tableName))
  | some table =>
      let schema := table.schema
      let rows := table.rows
      match action with
      | .addColumn col =>
          if schema.columns.any (fun c => c.name = col.name) then
            (tables,
              .errorRes
                (.columnNotFound col.name
                  (some ("Column " ++ col.name ++ " already exists"))))
          else
            let newCol : ColumnDefinition :=
              { name := col.name, type := col.dataType
                primaryKey := col.constraints.contains .primaryKey
                autoIncrement := col.constraints.contains .autoIncrement
                unique := col.constraints.contains .unique
                notNull := col.constraints.contains .notNull
                defaultValue := .null }
            let schema2 := { schema with columns := schema.columns ++ [newCol] }
            let rows2 := rows.map (fun row => rowSet row col.name .null)
            (jmapSet tables tableName (table.updateSchemaAndRows schema2 rows2),
              .updateRes 0)
      | .dropColumn columnName =>
          if ¬ schema.columns.any (fun c => c.name = columnName) then
            (tables,
              .errorRes
                (.columnNotFound columnName
                  (some ("Column " ++ columnName ++ " does not exist"))))
          else
            let schema2 :=
              { schema with
                  columns := schema.columns.filter (fun c => c.name ≠ columnName) }
            let rows2 := rows.map (fun row => rowDelete row columnName)
            (jmapSet tables tableName (table.updateSchemaAndRows schema2 rows2),
              .updateRes 0)
      | .renameColumn oldName newName =>
          if ¬ schema.columns.any (fun c => c.name = oldName) then
            (tables,
              .errorRes
                (.columnNotFound oldName
                  (some ("Column " ++ oldName ++ " does not exist"))))
          else if schema.columns.any (fun c => c.name = newName) then
            (tables,
              .errorRes
                (.columnNotFound newName
                  (some ("Column " ++ newName ++ " already exists"))))
          else
            let schema2 :=
              { schema with
                  columns := schema.columns.map
                    (fun c => if c.name = oldName then { c with name := newName } else c) }
            let rows2 :=
              rows.map
                (fun row =>
                  match rowGet row oldName with
                  | some v => rowDelete (rowSet row newName v) oldName
                  | none => rowDelete (rowSet row newName .null) oldName)
            (jmapSet tables tableName (table.updateSchemaAndRows schema2 rows2),
              .updateRes 0)
      | .modifyColumn col =>
          if ¬ schema.columns.any (fun c => c.name = col.name) then
            (tables,
              .errorRes
                (.columnNotFound col.name
                  (some ("Column " ++ col.name ++ " does not exist"))))
          else
            let newCol : ColumnDefinition :=
              { name := col.name, type := col.dataType
                primaryKey := col.constraints.contains .primaryKey
                autoIncrement := col.constraints.contains .autoIncrement
                unique := col.constraints.contains .unique
                notNull := col.constraints.contains .notNull
                defaultValue := .null }
            let schema2 :=
              { schema with
                  columns := schema.columns.map
                    (fun c => if c.name = col.name then newCol else c) }
            (jmapSet tables tableName (table.updateSchemaAndRows schema2 rows),
              .updateRes 0)

end AlterTableExecutor

namespace DropTableExecutor

/-- `DropTableExecutor.execute` (`lib/executor/DropTableExecutor.ts`, the
revision with the `IF EXISTS` branch; the parser present never sets the
flag). -/
def execute (tableName : String) (ifExists : Bool) (tables : Catalog) :
    Catalog × QueryResult :=
  if ¬ jmapHas tables tableName then
    if ifExists then (tables, .dropTableRes tableName)
    else (tables, .errorRes (.tableNotFound tableName))
  else (jmapDelete tables tableName, .dropTableRes tableName)

end DropTableExecutor

/-! ## UpdateExecutor -/

namespace UpdateExecutor

/-- Modelled from the spec: the `UpdateExecutor` source file is absent from
`src/` (only its imports and the session dispatch are present).  Per spec
§4.3, its WHERE leaf evaluation normalises TEXT case-insensitively; `=` and
`!=` against NULL are false unless both sides are NULL (`=` true, `!=`
false); ordering against NULL is false; ordering coerces to number, with a
non-coercing operand making the comparison false; LIKE is string-only. -/
def specCompare (left : Value) (operator : CompOp) (right : Value) : Bool :=
  if left = .null ∨ right = .null then
    match operator with
    | .eq => left = .null ∧ right = .null
    | _ => false
  else
    match operator with
    | .eq =>
        SelectExecutor.normalizeForComparison left =
          SelectExecutor.normalizeForComparison right
    | .ne =>
        SelectExecutor.normalizeForComparison left ≠
          SelectExecutor.normalizeForComparison right
    | .like => SelectExecutor.likeCompare left right
    | op =>
        match SelectExecutor.toNumber left, SelectExecutor.toNumber right with
        | some l, some r =>
            match op with
            | .gt => JSNum.jlt r l
            | .lt => JSNum.jlt l r
            | .ge => JSNum.jle r l
            | .le => JSNum.jle l r
            | _ => false
        | _, _ => false

/-- Modelled from the spec: condition trees combine leaves with AND/OR. -/
def evaluateCondition (row : Row) : Cond → Bool
  | .logical op l r =>
      match op with
      | .and => evaluateCondition row l && evaluateCondition row r
      | .or => evaluateCondition row l || evaluateCondition row r
  | .cond column operator value =>
      specCompare ((rowGet row column).getD .null) operator value

/-- Modelled from the spec (§4.5): build the predicate from the WHERE
clause (absent means always true), forward to the table's update operation,
and surface constraint violations. -/
def execute (tableName : String) (setList : List (String × Value))
    (whereC : Option WhereClause) (tables : Catalog) : Catalog × QueryResult :=
  match jmapGet tables tableName with
  | none => (tables, .errorRes (.tableNotFound tableName))
  | some table =>
      let updates : Jmap String Value :=
        setList.foldl (fun m p => jmapSet m p.1 p.2) []
      let filter : Row → Nat → Bool :=
        match whereC with
        | some w => fun row _ => w.all (fun c => evaluateCondition row c)
        | none => fun _ _ => true
      let r := table.updateRows updates filter
      let tables2 := jmapSet tables tableName r.1
      match r.2.error with
      | some violation => (tables2, .errorRes (.constraintViolation violation))
      | none => (tables2, .updateRes r.2.rowsAffected)

end UpdateExecutor

/-! ## The session (`RDBMS`, the transactional snapshot) -/

/-- The session state: committed catalog, transaction flag and shadow
catalog. -/
structure RDBMSState where
  tables : Catalog
  inTransaction : Bool
  transactionTables : Option Catalog
deriving DecidableEq, Repr

namespace RDBMS

/-- The `RDBMS` constructor. -/
def initState : RDBMSState :=
  { tables := [], inTransaction := false, transactionTables := none }

/-- `beginTransaction`: error when already in a transaction; otherwise
clone every table into the shadow catalog (cloning is the identity on pure
values) and set the flag. -/
def beginTransaction (st : RDBMSState) : RDBMSState × QueryResult :=
  if st.inTransaction then
    (st, .errorRes (.transactionError "Transaction already in progress"))
  else
    ({ st with
        transactionTables :=
          some (st.tables.map (fun p => (p.1, p.2.clone)))
        inTransaction := true },
      .okRes)

/-- `commitTransaction`. -/
def commitTransaction (st : RDBMSState) : RDBMSState × QueryResult :=
  match st.inTransaction, st.transactionTables with
  | true, some shadow =>
      ({ tables := shadow, inTransaction := false, transactionTables := none },
        .okRes)
  | _, _ => (st, .errorRes (.transactionError "No transaction in progress"))

/-- `rollbackTransaction`. -/
def rollbackTransaction (st : RDBMSState) : RDBMSState × QueryResult :=
  if ¬ st.inTransaction then
    (st, .errorRes (.transactionError "No transaction in progress"))
  else
    ({ st with transactionTables := none, inTransaction := false }, .okRes)

/-- `executeStatement`: route to the executor, against the shadow catalog
while a transaction is open, else the committed catalog; executors that
mutate hand back the catalog they were given. -/
def executeStatement (st : RDBMSState) (statement : Statement) :
    RDBMSState × QueryResult :=
  let useShadow := st.inTransaction ∧ st.transactionTables.isSome
  let active : Catalog :=
    if useShadow then st.transactionTables.getD [] else st.tables
  let putBack : Catalog → RDBMSState := fun catalog =>
    if useShadow then { st with transactionTables := some catalog }
    else { st with tables := catalog }
  match statement with
  | .selectStmt columns fromTable whereC join orderBy limit =>
      (st, SelectExecutor.execute columns fromTable whereC join orderBy limit active)
  | .insert tableName columns values =>
      let r := InsertExecutor.execute tableName columns values active
      (putBack r.1, r.2)
  | .update tableName setList whereC =>
      let r := UpdateExecutor.execute tableName setList whereC active
      (putBack r.1, r.2)
  | .deleteStmt fromTable whereC =>
      let r := DeleteExecutor.execute fromTable whereC active
      (putBack r.1, r.2)
  | .createTable tableName columns ifNotExists =>
      let r := CreateTableExecutor.execute tableName columns ifNotExists active
      (putBack r.1, r.2)
  | .alterTable tableName action =>
      let r := AlterTableExecutor.execute tableName action active
      (putBack r.1, r.2)
  | .dropTable tableName ifExists =>
      let r := DropTableExecutor.execute tableName ifExists active
      (putBack r.1, r.2)
  | .showTables => (st, MetaExecutor.executeShowTables active)
  | .describe tableName => (st, MetaExecutor.executeDescribe tableName active)
  | .beginTxn => beginTransaction st
  | .commitTxn => commitTransaction st
  | .rollbackTxn => rollbackTransaction st

/-- `execute`: trim, parse, dispatch; a structured parse error is returned
verbatim as an error result. -/
def execute (st : RDBMSState) (sql : String) : RDBMSState × QueryResult :=
  match parseSQL (jsTrim sql) with
  | .error e => (st, .errorRes e)
  | .ok (statement, _) => executeStatement st statement

/-- Execute a list of statements in order. -/
def runStatements (st : RDBMSState) (sqls : List String) : RDBMSState :=
  sqls.foldl (fun s sql => (execute s sql).1) st

end RDBMS

/-! ## The catch handlers of the error contract -/

/-- A JavaScript thrown value as the catch blocks discriminate it: a
structured database error (an object with a `type` field), an `Error`
instance carrying a message, or anything else. -/
inductive Thrown where
  | dbError (e : DatabaseError)
  | jsError (message : String)
  | foreign
deriving DecidableEq, Repr

/-- The catch block of `RDBMS.execute`: structured database errors are
returned verbatim; other failures are wrapped as `SYNTAX_ERROR` with the
captured message. -/
def rdbmsCatch (t : Thrown) : QueryResult :=
  match t with
  | .dbError e => .errorRes e
  | .jsError m => .errorRes (.syntaxError m)
  | .foreign => .errorRes (.syntaxError "Unknown error")

/-- The catch block wrapped around every executor body (`SelectExecutor`,
`InsertExecutor`, `DeleteExecutor`, `CreateTableExecutor`, ...): failures
are reported as `EXECUTION_ERROR` with the captured message. -/
def executorCatch (t : Thrown) : QueryResult :=
  match t with
  | .jsError m => .errorRes (.executionError m)
  | _ => .errorRes (.executionError "Unknown error")

/-- Whether a result is error-shaped (`success === false`). -/
def QueryResult.isError : QueryResult → Bool
  | .errorRes _ => true
  | _ => false

/-! ## The claims -/

/-- C1.  The claim asserts that after
`CREATE TABLE u (id INTEGER PRIMARY KEY AUTO_INCREMENT, e TEXT UNIQUE NOT
NULL)` on an empty catalog, `INSERT INTO u (e) VALUES ('a@x')` succeeds
with `rowsAffected = 1` and `lastInsertId = 1`, the row is stored, and each
primary-key or unique column's index receives the value exactly once.  The
code refutes this: the table-creation executor marks the primary-key column
`unique`, so `insertRow` adds the generated key to the *same* index twice —
once through the primary-key check and once through the unique check — and
the second addition reports a duplicate.  The insert is rejected with a
UNIQUE violation on column `id` (value 1) and no row is stored, although
the engine's own spec scenario and demo application expect it to succeed.
This theorem evaluates the engine at exactly the claimed statements. -/
theorem C1_pk_insert_rejected :
    (RDBMS.execute RDBMS.initState
        "CREATE TABLE u (id INTEGER PRIMARY KEY AUTO_INCREMENT, e TEXT UNIQUE NOT NULL)").2 =
      .createTableRes "u" ∧
    (RDBMS.execute (RDBMS.execute RDBMS.initState
        "CREATE TABLE u (id INTEGER PRIMARY KEY AUTO_INCREMENT, e TEXT UNIQUE NOT NULL)").1
      "INSERT INTO u (e) VALUES (\"a@x\")").2 =
    .errorRes (.constraintViolation
      { type := "UNIQUE", column := "id", value := .num ⟨1, 1⟩,
        message := "Unique constraint violation: value 1 already exists in column id" }) ∧
    ((jmapGet (RDBMS.execute (RDBMS.execute RDBMS.initState
        "CREATE TABLE u (id INTEGER PRIMARY KEY AUTO_INCREMENT, e TEXT UNIQUE NOT NULL)").1
      "INSERT INTO u (e) VALUES (\"a@x\")").1.tables "u").map
        (fun t => t.rows)) = some [] := by
  refine ⟨by decide, by decide, by decide⟩

/-- C5 counter-evidence (code bug).  The claim asserts that the lexer
reclassifies a word to a reserved-keyword token exactly when its uppercase
form is in the spec's keyword list, which includes ADD, RENAME, COLUMN, TO,
MODIFY, IF, EXISTS, BEGIN, COMMIT and ROLLBACK.  The tokenizer's `KEYWORDS`
map has none of those ten entries (and its token-type enum lacks the
members), so each of these words lexes as an identifier preserving its
original case — even though the parser in the same source tree matches the
token types `ADD`, `RENAME`, `COLUMN`, `TO` and `MODIFY`, which therefore
do not exist.  The positive control shows an actual keyword reclassified
with its uppercase form stored. -/
theorem C5_missing_keywords :
    KEYWORDS "ADD" = none ∧ KEYWORDS "RENAME" = none ∧
    KEYWORDS "COLUMN" = none ∧ KEYWORDS "TO" = none ∧
    KEYWORDS "MODIFY" = none ∧ KEYWORDS "IF" = none ∧
    KEYWORDS "EXISTS" = none ∧ KEYWORDS "BEGIN" = none ∧
    KEYWORDS "COMMIT" = none ∧ KEYWORDS "ROLLBACK" = none ∧
    Tokenizer.tokenize "add" =
      [{ type := .IDENTIFIER, value := "add", position := 0 },
       { type := .EOF, value := "", position := 3 }] ∧
    Tokenizer.tokenize "ADD" =
      [{ type := .IDENTIFIER, value := "ADD", position := 0 },
       { type := .EOF, value := "", position := 3 }] ∧
    Tokenizer.tokenize "select" =
      [{ type := .SELECT, value := "SELECT", position := 0 },
       { type := .EOF, value := "", position := 6 }] := by
  refine ⟨by decide, by decide, by decide, by decide, by decide, by decide,
    by decide, by decide, by decide, by decide, by decide, by decide, by decide⟩

/-- C7.  With table `w(a, b, c INTEGER)` holding exactly the rows
(1,1,1), (1,0,1), (0,1,0) — loaded by three single-group INSERT statements,
since the engine's VALUES loop keeps only a statement's first group — the
query `SELECT * FROM w WHERE a=1 OR b=1 AND c=0` parses its condition by
left-associative flattening with AND and OR at equal precedence — the tree
is `AND (OR (a=1) (b=1)) (c=0)` — and evaluating it returns exactly the
single row (0,1,0). -/
theorem C7_where_precedence :
    (parseSQL "SELECT * FROM w WHERE a=1 OR b=1 AND c=0").toOption.map
        (fun p => p.1) =
      some (.selectStmt .star "w"
        (some [.logical .and
          (.logical .or
            (.cond "a" .eq (.num ⟨1, 1⟩))
            (.cond "b" .eq (.num ⟨1, 1⟩)))
          (.cond "c" .eq (.num ⟨0, 1⟩))])
        none none none) ∧
    ((jmapGet (RDBMS.runStatements RDBMS.initState
        ["CREATE TABLE w (a INTEGER, b INTEGER, c INTEGER)",
         "INSERT INTO w (a,b,c) VALUES (1,1,1)",
         "INSERT INTO w (a,b,c) VALUES (1,0,1)",
         "INSERT INTO w (a,b,c) VALUES (0,1,0)"]).tables
        "w").map (fun t => t.rows)) =
      some [[("a", .num ⟨1, 1⟩), ("b", .num ⟨1, 1⟩), ("c", .num ⟨1, 1⟩)],
            [("a", .num ⟨1, 1⟩), ("b", .num ⟨0, 1⟩), ("c", .num ⟨1, 1⟩)],
            [("a", .num ⟨0, 1⟩), ("b", .num ⟨1, 1⟩), ("c", .num ⟨0, 1⟩)]] ∧
    (RDBMS.execute (RDBMS.runStatements RDBMS.initState
        ["CREATE TABLE w (a INTEGER, b INTEGER, c INTEGER)",
         "INSERT INTO w (a,b,c) VALUES (1,1,1)",
         "INSERT INTO w (a,b,c) VALUES (1,0,1)",
         "INSERT INTO w (a,b,c) VALUES (0,1,0)"])
      "SELECT * FROM w WHERE a=1 OR b=1 AND c=0").2 =
    .select [[("a", .num ⟨0, 1⟩), ("b", .num ⟨1, 1⟩), ("c", .num ⟨0, 1⟩)]] 1 := by
  refine ⟨by decide, by decide, by decide⟩

/-- C8.  After `CREATE TABLE t (n INTEGER, r REAL, b BOOLEAN)`, the insert
`INSERT INTO t (n,r,b) VALUES ('42','3.5','yes')` succeeds with
`rowsAffected = 1` and stores the coerced row `{n: 42, r: 3.5, b: true}`;
`SELECT * FROM t` returns exactly that row; inserting `'x'` for `n` fails
with a TYPE_MISMATCH constraint violation referencing column `n`. -/
theorem C8_type_coercion :
    (RDBMS.execute (RDBMS.execute RDBMS.initState
        "CREATE TABLE t (n INTEGER, r REAL, b BOOLEAN)").1
      "INSERT INTO t (n,r,b) VALUES (\"42\",\"3.5\",\"yes\")").2 =
      .insertRes 1 none ∧
    ((jmapGet (RDBMS.runStatements RDBMS.initState
        ["CREATE TABLE t (n INTEGER, r REAL, b BOOLEAN)",
         "INSERT INTO t (n,r,b) VALUES (\"42\",\"3.5\",\"yes\")"]).tables
        "t").map (fun t => t.rows)) =
      some [[("n", .num ⟨42, 1⟩), ("r", .num ⟨7, 2⟩), ("b", .bool true)]] ∧
    (RDBMS.execute (RDBMS.runStatements RDBMS.initState
        ["CREATE TABLE t (n INTEGER, r REAL, b BOOLEAN)",
         "INSERT INTO t (n,r,b) VALUES (\"42\",\"3.5\",\"yes\")"])
      "SELECT * FROM t").2 =
      .select [[("n", .num ⟨42, 1⟩), ("r", .num ⟨7, 2⟩), ("b", .bool true)]] 1 ∧
    (RDBMS.execute (RDBMS.runStatements RDBMS.initState
        ["CREATE TABLE t (n INTEGER, r REAL, b BOOLEAN)",
         "INSERT INTO t (n,r,b) VALUES (\"42\",\"3.5\",\"yes\")"])
      "INSERT INTO t (n,r,b) VALUES (\"x\",1.0,true)").2 =
    .errorRes (.constraintViolation
      { type := "TYPE_MISMATCH", column := "n", value := .str "x",
        message := "Cannot convert x to INTEGER for column n" }) := by
  refine ⟨by decide, by decide, by decide, by decide⟩

/-- C2 counterexample.  The claim quantifies over *every* sequence of
statements between `BEGIN` and `ROLLBACK`; it fails when the sequence
itself ends the transaction.  Concretely, for the sequence
`["COMMIT", "CREATE TABLE t (a INTEGER)"]`, the `COMMIT` closes the
transaction, the `CREATE TABLE` then writes to the committed catalog, and
the final `ROLLBACK` merely errors — so the committed catalog gains table
`t` and differs from its (empty) state before `BEGIN`. -/
theorem C2_counterexample :
    (RDBMS.runStatements RDBMS.initState
        ["BEGIN", "COMMIT", "CREATE TABLE t (a INTEGER)", "ROLLBACK"]).tables ≠
      RDBMS.initState.tables := by
  decide

/-- C3 counterexample.  The claim asserts that `!=` with at least one NULL
operand evaluates to *false* (unless both are NULL).  In both the SELECT
and the DELETE evaluators the code returns `left !== right`, which is
*true* when exactly one operand is NULL: here `5 != NULL` evaluates to
true. -/
theorem C3_counterexample :
    SelectExecutor.compareValues (.num ⟨5, 1⟩) .ne .null = true ∧
    DeleteExecutor.evaluateCondition [("a", .num ⟨5, 1⟩)]
      (.cond "a" .ne .null) = true := by
  refine ⟨by decide, by decide⟩

/-- C4 counterexample.  The claim asserts that a NULL value is never stored
as an index key and that a second row with NULL in a unique column is not
rejected.  The code normalises NULL to NULL and stores it like any other
key: after `CREATE TABLE v (e TEXT UNIQUE)` and one `INSERT ... (NULL)`,
the unique index on `e` holds the entry `(NULL, 0)`, and a second
`INSERT ... (NULL)` is rejected with a UNIQUE violation. -/
theorem C4_counterexample :
    ((jmapGet (RDBMS.runStatements RDBMS.initState
        ["CREATE TABLE v (e TEXT UNIQUE)",
         "INSERT INTO v (e) VALUES (NULL)"]).tables "v").map
      (fun t => TableStorage.getIndex t "e")) =
      some (some { columnName := "e", unique := true,
                   entries := [(.null, [0])] }) ∧
    (RDBMS.execute (RDBMS.runStatements RDBMS.initState
        ["CREATE TABLE v (e TEXT UNIQUE)",
         "INSERT INTO v (e) VALUES (NULL)"])
      "INSERT INTO v (e) VALUES (NULL)").2 =
    .errorRes (.constraintViolation
      { type := "UNIQUE", column := "e", value := .null,
        message := "Unique constraint violation: value null already exists in column e" }) := by
  refine ⟨by decide, by decide⟩

/-- C3, as amended.  In the SELECT and DELETE WHERE evaluators (the UPDATE
executor's source is absent from `src/`), a leaf comparison with at least
one NULL operand behaves as follows: `=` is true exactly when both
operands are NULL; `!=` is true exactly when *not* both are NULL (so one
NULL operand makes `!=` true, not false as claimed); every ordering
operator yields false. -/
theorem C3_null_semantics (l r : Value) (row : Row) (c : String)
    (h : l = .null ∨ r = .null) (hl : (rowGet row c).getD .null = l) :
    SelectExecutor.compareValues l .eq r = decide (l = .null ∧ r = .null) ∧
    SelectExecutor.compareValues l .ne r = !decide (l = .null ∧ r = .null) ∧
    SelectExecutor.compareValues l .gt r = false ∧
    SelectExecutor.compareValues l .lt r = false ∧
    SelectExecutor.compareValues l .ge r = false ∧
    SelectExecutor.compareValues l .le r = false ∧
    DeleteExecutor.evaluateCondition row (.cond c .eq r) =
      decide (l = .null ∧ r = .null) ∧
    DeleteExecutor.evaluateCondition row (.cond c .ne r) =
      !decide (l = .null ∧ r = .null) ∧
    DeleteExecutor.evaluateCondition row (.cond c .gt r) = false ∧
    DeleteExecutor.evaluateCondition row (.cond c .lt r) = false ∧
    DeleteExecutor.evaluateCondition row (.cond c .ge r) = false ∧
    DeleteExecutor.evaluateCondition row (.cond c .le r) = false := by
  have hsel : ∀ op : CompOp,
      SelectExecutor.compareValues l op r =
        (if op = .eq then decide (l = r)
         else if op = .ne then decide (l ≠ r) else false) := by
    intro op
    simp only [SelectExecutor.compareValues, if_pos h]
  have hdel : ∀ op : CompOp,
      DeleteExecutor.evaluateCondition row (.cond c op r) =
        (if op = .eq then decide (l = r)
         else if op = .ne then decide (l ≠ r) else false) := by
    intro op
    simp only [DeleteExecutor.evaluateCondition, hl, if_pos h]
  have heq : decide (l = r) = decide (l = .null ∧ r = .null) := by
    rcases h with h | h <;> subst h
    · by_cases hr : r = Value.null
      · subst hr; simp
      · simp [hr, Ne.symm hr]
    · by_cases hlf : l = Value.null
      · subst hlf; simp
      · simp [hlf]
  have hne : decide (l ≠ r) = !decide (l = .null ∧ r = .null) := by
    rcases h with h | h <;> subst h
    · by_cases hr : r = Value.null
      · subst hr; simp
      · simp [hr, Ne.symm hr]
    · by_cases hlf : l = Value.null
      · subst hlf; simp
      · simp [hlf]
  refine ⟨?_, ?_, ?_, ?_, ?_, ?_, ?_, ?_, ?_, ?_, ?_, ?_⟩ <;>
    simp only [hsel, hdel] <;> simp [heq, hne]

/-- C3 witness: the amended NULL semantics instantiated at the comparison
`5 != NULL` (true) and `5 < NULL` (false) in both evaluators. -/
theorem C3_null_semantics_witness :
    SelectExecutor.compareValues (.num ⟨5, 1⟩) .ne .null =
      !decide (Value.num ⟨5, 1⟩ = .null ∧ Value.null = .null) ∧
    SelectExecutor.compareValues (.num ⟨5, 1⟩) .lt .null = false ∧
    DeleteExecutor.evaluateCondition [("a", .num ⟨5, 1⟩)] (.cond "a" .lt .null) =
      false := by
  have h := C3_null_semantics (.num ⟨5, 1⟩) .null [("a", .num ⟨5, 1⟩)] "a"
    (Or.inr rfl) (by decide)
  exact ⟨h.2.1, h.2.2.2.1, h.2.2.2.2.2.2.2.2.2.1⟩

/-- C4, as amended.  `IndexManager.addEntry` normalises NULL to NULL and
stores it as an index key like any other value: when the index has no NULL
key yet, the entry `(NULL, rowIndex)` is added; when a unique index already
holds a non-empty position set under the NULL key, the addition is rejected
with a UNIQUE violation (so a second row with NULL in a unique column IS
rejected as a duplicate; the claimed behaviour — never storing NULL and
never rejecting — holds for neither half). -/
theorem C4_null_index_key (i : Index) (r : Nat) :
    (jmapGet i.entries .null = none →
      IndexManager.addEntry i .null r =
        ({ i with entries := jmapSet i.entries .null [r] }, none)) ∧
    (∀ s : Jset, i.unique = true → jmapGet i.entries .null = some s →
      0 < s.length →
      IndexManager.addEntry i .null r =
        (i, some { type := "UNIQUE", column := i.columnName, value := .null,
                   message := "Unique constraint violation: value null already exists in column " ++
                     i.columnName })) := by
  constructor
  · intro hnone
    simp only [IndexManager.addEntry, IndexManager.normalizeValue, hnone]
  · intro s hu hsome hlen
    simp only [IndexManager.addEntry, IndexManager.normalizeValue, hsome]
    rw [if_pos ⟨hu, hlen⟩]
    rfl

/-- C4 witness: the amended behaviour at a fresh unique index on column
`e`: the first NULL insertion stores the entry, the second is rejected. -/
theorem C4_null_index_key_witness :
    IndexManager.addEntry (IndexManager.createIndex "e" true) .null 0 =
      ({ IndexManager.createIndex "e" true with
          entries := jmapSet (IndexManager.createIndex "e" true).entries .null [0] },
        none) ∧
    IndexManager.addEntry
        { columnName := "e", unique := true, entries := [(.null, [0])] } .null 1 =
      ({ columnName := "e", unique := true, entries := [(.null, [0])] },
        some { type := "UNIQUE", column := "e", value := .null,
               message := "Unique constraint violation: value null already exists in column " ++
                 "e" }) := by
  refine ⟨(C4_null_index_key (IndexManager.createIndex "e" true) 0).1 (by decide),
    (C4_null_index_key
      { columnName := "e", unique := true, entries := [(.null, [0])] } 1).2
      [0] rfl (by decide) (by decide)⟩

/-- C6.  An internal failure raised while executing a statement that is
not a structured database error is caught by the executor's catch block and
reported as an error-shaped result of kind EXECUTION_ERROR carrying the
captured message (an `Error` instance's message; other thrown values yield
the captured fallback text).  Structured database errors are surfaced
verbatim: a thrown structured error reaches the session's catch block
unchanged, and in particular every structured parse failure is returned
verbatim by `execute`. -/
theorem C6_execution_error_contract :
    (∀ m : String, executorCatch (.jsError m) = .errorRes (.executionError m)) ∧
    (∀ t : Thrown, (executorCatch t).isError = true) ∧
    (∀ e : DatabaseError, rdbmsCatch (.dbError e) = .errorRes e) ∧
    (∀ (st : RDBMSState) (sql : String) (e : DatabaseError),
      parseSQL (jsTrim sql) = .error e →
      RDBMS.execute st sql = (st, .errorRes e)) := by
  refine ⟨fun m => rfl, fun t => by cases t <;> rfl, fun e => rfl, ?_⟩
  intro st sql e h
  simp only [RDBMS.execute, h]

/-- C6 witness: the contract at a concrete internal failure (message
`boom`) and at a concrete statement whose parse fails with a structured
syntax error. -/
theorem C6_execution_error_contract_witness :
    executorCatch (.jsError "boom") = .errorRes (.executionError "boom") ∧
    RDBMS.execute RDBMS.initState ")" =
      (RDBMS.initState, .errorRes (.syntaxError "Unknown SQL statement at position 0")) := by
  refine ⟨C6_execution_error_contract.1 "boom",
    C6_execution_error_contract.2.2.2 RDBMS.initState ")"
      (.syntaxError "Unknown SQL statement at position 0") (by rfl)⟩

/-- C10.  Once the parser has consumed a syntactically complete statement
(and an optional semicolon) it returns without inspecting the remaining
tokens, which therefore never produce a syntax error and have no effect on
execution.  Concretely: (a) `DROP TABLE IF EXISTS u` parses as a DROP
TABLE statement whose table name is the identifier `IF` (the word is not a
keyword here), leaving the tokens `EXISTS` and `u` unconsumed; (b) for a
DROP TABLE statement the tokens after the table name are arbitrary: any
trailing junk whatsoever is left unconsumed past the optional semicolon;
(c) whenever a parse succeeds with leftover tokens, `execute`'s result is
exactly that of the parsed statement — leftovers are silently ignored. -/
theorem C10_trailing_tokens_ignored :
    (parseSQL "DROP TABLE IF EXISTS u" =
      .ok (.dropTable "IF" false,
        [{ type := .IDENTIFIER, value := "EXISTS", position := 14 },
         { type := .IDENTIFIER, value := "u", position := 21 },
         { type := .EOF, value := "", position := 22 }])) ∧
    (∀ (t1 t2 t3 : Token) (junk : List Token),
      t1.type = .DROP → t2.type = .TABLE → t3.type = .IDENTIFIER →
      parseStatement (t1 :: t2 :: t3 :: junk) =
        .ok (.dropTable t3.value false, skipOptionalSemicolon junk)) ∧
    (∀ (st : RDBMSState) (input : String) (stm : Statement) (rest : List Token),
      parseSQL (jsTrim input) = .ok (stm, rest) →
      RDBMS.execute st input = RDBMS.executeStatement st stm) := by
  refine ⟨by rfl, ?_, ?_⟩
  · intro t1 t2 t3 junk h1 h2 h3
    simp [parseStatement, parseDispatch, parseDropTable, parseIdentifier,
      consume, curTok, h1, h2, h3]
  · intro st input stm rest h
    simp only [RDBMS.execute, h]

/-- C10 witness: the general parts instantiated at the example statement
(`DROP TABLE IF EXISTS u` at the token and string levels). -/
theorem C10_trailing_tokens_ignored_witness :
    parseStatement
        [{ type := .DROP, value := "DROP", position := 0 },
         { type := .TABLE, value := "TABLE", position := 5 },
         { type := .IDENTIFIER, value := "IF", position := 11 },
         { type := .IDENTIFIER, value := "EXISTS", position := 14 },
         { type := .IDENTIFIER, value := "u", position := 21 },
         { type := .EOF, value := "", position := 22 }] =
      .ok (.dropTable "IF" false,
        skipOptionalSemicolon
          [{ type := .IDENTIFIER, value := "EXISTS", position := 14 },
           { type := .IDENTIFIER, value := "u", position := 21 },
           { type := .EOF, value := "", position := 22 }]) ∧
    RDBMS.execute RDBMS.initState "DROP TABLE IF EXISTS u" =
      RDBMS.executeStatement RDBMS.initState (.dropTable "IF" false) := by
  refine ⟨C10_trailing_tokens_ignored.2.1 _ _ _ _ rfl rfl rfl,
    C10_trailing_tokens_ignored.2.2 RDBMS.initState "DROP TABLE IF EXISTS u"
      (.dropTable "IF" false) _ (by rfl)⟩

/-- A SQL string is "transaction-safe" when it does not parse to COMMIT or
ROLLBACK (statements that end the open transaction from inside). -/
def nonTxnEnd (sql : String) : Bool :=
  match parseSQL (jsTrim sql) with
  | .ok (.commitTxn, _) => false
  | .ok (.rollbackTxn, _) => false
  | _ => true

/-- While a transaction is open (flag set and shadow present), any statement
other than COMMIT/ROLLBACK leaves the committed catalog untouched and keeps
the transaction open: executors work on the shadow catalog. -/
theorem exec_stmt_txn_preserves (st : RDBMSState) (stm : Statement)
    (h1 : st.inTransaction = true) (h2 : st.transactionTables.isSome = true)
    (hc : stm ≠ .commitTxn) (hr : stm ≠ .rollbackTxn) :
    (RDBMS.executeStatement st stm).1.tables = st.tables ∧
    (RDBMS.executeStatement st stm).1.inTransaction = true ∧
    (RDBMS.executeStatement st stm).1.transactionTables.isSome = true := by
  cases stm <;>
    simp_all [RDBMS.executeStatement, RDBMS.beginTransaction]

/-- String-level version of `exec_stmt_txn_preserves`: in an open
transaction, executing any transaction-safe SQL string (including ones that
fail to parse) preserves the committed catalog and the open transaction. -/
theorem exec_txn_preserves (st : RDBMSState) (sql : String)
    (h1 : st.inTransaction = true) (h2 : st.transactionTables.isSome = true)
    (hs : nonTxnEnd sql = true) :
    (RDBMS.execute st sql).1.tables = st.tables ∧
    (RDBMS.execute st sql).1.inTransaction = true ∧
    (RDBMS.execute st sql).1.transactionTables.isSome = true := by
  unfold nonTxnEnd at hs
  cases hp : parseSQL (jsTrim sql) with
  | error e =>
      have he : RDBMS.execute st sql = (st, .errorRes e) := by
        simp [RDBMS.execute, hp]
      rw [he]
      exact ⟨rfl, h1, h2⟩
  | ok p =>
      obtain ⟨stm, rest⟩ := p
      rw [hp] at hs
      have hc : stm ≠ .commitTxn := by
        intro h
        subst h
        simp at hs
      have hr : stm ≠ .rollbackTxn := by
        intro h
        subst h
        simp at hs
      have he : RDBMS.execute st sql = RDBMS.executeStatement st stm := by
        simp [RDBMS.execute, hp]
      rw [he]
      exact exec_stmt_txn_preserves st stm h1 h2 hc hr

/-- Folding transaction-safe statements over an open transaction preserves
the committed catalog and keeps the transaction open. -/
theorem runStatements_txn_preserves (sqls : List String) :
    ∀ (st : RDBMSState), st.inTransaction = true →
    st.transactionTables.isSome = true → sqls.all nonTxnEnd = true →
    (RDBMS.runStatements st sqls).tables = st.tables ∧
    (RDBMS.runStatements st sqls).inTransaction = true ∧
    (RDBMS.runStatements st sqls).transactionTables.isSome = true := by
  induction sqls with
  | nil =>
      intro st h1 h2 _
      exact ⟨rfl, h1, h2⟩
  | cons sql rest ih =>
      intro st h1 h2 hall
      simp only [List.all_cons, Bool.and_eq_true] at hall
      have hstep := exec_txn_preserves st sql h1 h2 hall.1
      have hrec := ih (RDBMS.execute st sql).1 hstep.2.1 hstep.2.2 hall.2
      simp only [RDBMS.runStatements, List.foldl_cons] at hrec ⊢
      exact ⟨hrec.1.trans hstep.1, hrec.2.1, hrec.2.2⟩

/-- C2 (amended).  For every session state with no open transaction and
every sequence of SQL strings none of which parses to COMMIT or ROLLBACK,
executing BEGIN, then the sequence, then ROLLBACK through the session's
`execute` entry point leaves the committed catalog exactly as it was before
BEGIN: BEGIN clones the committed catalog into a shadow that every statement
inside the transaction reads and writes, and ROLLBACK discards the shadow.
(The restriction to sequences without COMMIT/ROLLBACK is necessary: a
COMMIT inside the sequence ends the transaction early, after which later
statements write the committed catalog directly — see the counterexample.) -/
theorem C2_rollback_noop (st : RDBMSState) (sqls : List String)
    (hout : st.inTransaction = false) (hsafe : sqls.all nonTxnEnd = true) :
    (RDBMS.runStatements st ("BEGIN" :: sqls ++ ["ROLLBACK"])).tables =
      st.tables := by
  have hb : RDBMS.execute st "BEGIN" = RDBMS.beginTransaction st := by rfl
  have hst1 : (RDBMS.beginTransaction st).1.tables = st.tables ∧
      (RDBMS.beginTransaction st).1.inTransaction = true ∧
      (RDBMS.beginTransaction st).1.transactionTables.isSome = true := by
    simp [RDBMS.beginTransaction, hout]
  have hmid := runStatements_txn_preserves sqls (RDBMS.beginTransaction st).1
    hst1.2.1 hst1.2.2 hsafe
  have hrb : ∀ s : RDBMSState, RDBMS.execute s "ROLLBACK" =
      RDBMS.rollbackTransaction s := fun s => rfl
  simp only [RDBMS.runStatements, List.foldl_cons, List.foldl_append,
    List.foldl_nil, hb, hrb] at hmid ⊢
  rw [RDBMS.rollbackTransaction, if_neg (by simp [hmid.2.1])]
  exact hmid.1.trans hst1.1

/-- C2 witness: the amended theorem instantiated at the fresh session state
and the single transaction-safe statement CREATE TABLE t (a INTEGER). -/
theorem C2_rollback_noop_witness :
    RDBMS.initState.inTransaction = false ∧
    ["CREATE TABLE t (a INTEGER)"].all nonTxnEnd = true ∧
    (RDBMS.runStatements RDBMS.initState
        ("BEGIN" :: ["CREATE TABLE t (a INTEGER)"] ++ ["ROLLBACK"])).tables =
      RDBMS.initState.tables :=
  ⟨rfl, by decide,
    C2_rollback_noop RDBMS.initState ["CREATE TABLE t (a INTEGER)"] rfl
      (by decide)⟩

/-- A plain INTEGER column (no constraints, no auto-increment). -/
def colN9 : ColumnDefinition :=
  { name := "n", type := .integer, primaryKey := false, autoIncrement := false
    unique := false, notNull := false, defaultValue := .null }

/-- A one-column schema over `colN9`. -/
def schema9 : TableSchema :=
  { name := "t", columns := [colN9], primaryKey := none, uniqueColumns := [] }

/-- Fresh storage for `schema9` (no indices, no rows). -/
def ts9 : TableStorage := TableStorage.mk0 schema9

/-- C9.  `updateRows` writes the raw, uncoerced update value into each
matching row, while `insertRow` stores the coerced value returned by the
type validator.  (a) In the per-row write step of `updateRows`, whenever a
single-entry update names an existing column and no index violation occurs,
the row is overwritten with exactly the raw value — the validator's output
appears nowhere in the write.  (b) In `insertRow`'s preparation pass over a
one-column schema without auto-increment, a provided value that validates
is stored as the validator's coerced `value`.  (c) Concretely, for an
INTEGER column `n`: inserting the string "42" stores the number 42, but
updating an existing row with the string "42" stores the string "42" itself
and reports success — even though the validator, which the validation pass
of `updateRows` does consult, coerces "42" to the number 42. -/
theorem C9_update_skips_coercion :
    (∀ (schema : TableSchema) (c : String) (v : Value) (rowIndex : Nat)
        (row : Row) (indices : Jmap String Index),
      (schema.columns.find? (fun col => col.name = c)).isSome = true →
      (TableStorage.applyUpdatesToRow schema [(c, v)] rowIndex row indices).2 =
        none →
      (TableStorage.applyUpdatesToRow schema [(c, v)] rowIndex row indices).1.1 =
        rowSet row c v) ∧
    (∀ (schema : TableSchema) (column : ColumnDefinition) (counter0 : Int)
        (data : Row) (v : Value),
      schema.columns = [column] → column.autoIncrement = false →
      rowGet data column.name = some v →
      (TypeValidator.validate (some v) column.type column.name
          (!column.notNull)).valid = true →
      TableStorage.prepareRow schema counter0 data =
        .ok { preparedRow := [(column.name,
                (TypeValidator.validate (some v) column.type column.name
                  (!column.notNull)).value)]
              lastInsertId := none, counter := counter0 }) ∧
    ((TableStorage.insertRow ts9 [("n", Value.str "42")]).1.rows =
        [[("n", Value.num ⟨42, 1⟩)]]) ∧
    ((TableStorage.updateRows (TableStorage.insertRow ts9 [("n", Value.str "7")]).1
        [("n", Value.str "42")] (fun _ _ => true)).1.rows =
        [[("n", Value.str "42")]]) ∧
    ((TableStorage.updateRows (TableStorage.insertRow ts9 [("n", Value.str "7")]).1
        [("n", Value.str "42")] (fun _ _ => true)).2 =
        { success := true, rowsAffected := 1, error := none }) ∧
    (TypeValidator.validate (some (Value.str "42")) .integer "n" true).value =
        Value.num ⟨42, 1⟩ := by
  refine ⟨?_, ?_, by decide, by decide, by decide, by decide⟩
  · intro schema c v rowIndex row indices hc hok
    obtain ⟨col, hcol⟩ := Option.isSome_iff_exists.mp hc
    unfold TableStorage.applyUpdatesToRow at hok ⊢
    cases h1 : jmapGet indices c with
    | none => simp [hcol, h1]
    | some index =>
        cases h2 : rowGet row c with
        | none => simp [hcol, h1, h2]
        | some oldV =>
            cases h3 : (IndexManager.updateEntry index oldV v rowIndex).2 with
            | none => simp [hcol, h1, h2, h3]
            | some viol => simp [hcol, h1, h2, h3] at hok
  · intro schema column counter0 data v hcols hauto hget hvalid
    unfold TableStorage.prepareRow
    rw [hcols]
    simp [hauto, hget, hvalid, rowSet]

/-- C9 witness: the general parts instantiated at `schema9`: a one-row
table holding the number 7 in column `n`, updated and inserted with the
string "42". -/
theorem C9_update_skips_coercion_witness :
    ((schema9.columns.find? (fun col => col.name = "n")).isSome = true) ∧
    ((TableStorage.applyUpdatesToRow schema9 [("n", Value.str "42")] 0
        [("n", Value.num ⟨7, 1⟩)] []).2 = none) ∧
    ((TableStorage.applyUpdatesToRow schema9 [("n", Value.str "42")] 0
        [("n", Value.num ⟨7, 1⟩)] []).1.1 =
      rowSet [("n", Value.num ⟨7, 1⟩)] "n" (Value.str "42")) ∧
    (TableStorage.prepareRow schema9 1 [("n", Value.str "42")] =
      .ok { preparedRow := [("n",
              (TypeValidator.validate (some (Value.str "42")) colN9.type
                colN9.name (!colN9.notNull)).value)]
            lastInsertId := none, counter := 1 }) :=
  ⟨by decide, by decide,
    C9_update_skips_coercion.1 schema9 "n" (Value.str "42") 0
      [("n", Value.num ⟨7, 1⟩)] [] (by decide) (by decide),
    C9_update_skips_coercion.2.1 schema9 colN9 1 [("n", Value.str "42")]
      (Value.str "42") rfl rfl (by decide) (by decide)⟩

end MiniRDBMS
